import Mathlib

/-!
Verification of the micronav-pi navigation core against its specification.

The Python sources are shallowly embedded: dynamically-typed dicts become
structures with `Option` fields, Python floats become `ℚ` (the numeric code
performs only field arithmetic except for the haversine distance), and the
transcendental haversine `calculate_distance` is abstracted as an explicit
function parameter `calculate_distance : ℚ → ℚ → ℚ → ℚ → ℚ`, so every theorem
about code downstream of it holds for an arbitrary distance oracle.
Exception handling (`try/except` that swallows the error) is embedded by
`Option`-valued inner computations whose failure leaves the state unchanged.
-/

namespace Micronav

/-- Python truthiness of an optional float field: `None` and `0.0` are falsy. -/
def optTruthy (o : Option ℚ) : Bool :=
  match o with
  | none => false
  | some v => v != 0

/-- Python `round` (banker's rounding, ties to even), used by the
recalculation response conversion. -/
def pyRound (q : ℚ) : ℤ :=
  let f : ℤ := ⌊q⌋
  let r : ℚ := q - (f : ℚ)
  if r < 1/2 then f
  else if (1:ℚ)/2 < r then f + 1
  else if f % 2 = 0 then f else f + 1

/-! ## String / NMEA parsing primitives (gps_controller.py) -/

/-- Value of a decimal digit character, `none` for non-digits. -/
def digitVal (c : Char) : Option ℕ :=
  if '0' ≤ c ∧ c ≤ '9' then some (c.toNat - '0'.toNat) else none

/-- Accumulate a run of decimal digits; fails on any non-digit. -/
def parseDigitsAux (acc : ℕ) : List Char → Option ℕ
  | [] => some acc
  | c :: r =>
    match digitVal c with
    | some d => parseDigitsAux (10 * acc + d) r
    | none => none

/-- Model of Python `int(s)` on the plain decimal strings the NMEA fields use:
an optional sign followed by at least one digit. -/
def pyInt : List Char → Option ℤ
  | '-' :: r => if r = [] then none else (parseDigitsAux 0 r).map (fun n => -(n : ℤ))
  | '+' :: r => if r = [] then none else (parseDigitsAux 0 r).map (fun n => (n : ℤ))
  | l => if l = [] then none else (parseDigitsAux 0 l).map (fun n => (n : ℤ))

/-- Split a character list at the first `'.'`; returns the prefix and, when a
dot was found, the rest. -/
def breakDot : List Char → List Char × Option (List Char)
  | [] => ([], none)
  | c :: r =>
    if c = '.' then ([], some r)
    else
      let p := breakDot r
      (c :: p.1, p.2)

/-- Unsigned decimal literal: `D*`, `D*.D*` with at least one digit overall. -/
def pyUFloat (l : List Char) : Option ℚ :=
  match breakDot l with
  | (ip, none) =>
      if ip = [] then none else (parseDigitsAux 0 ip).map (fun n => (n : ℚ))
  | (ip, some fp) =>
      if ip = [] ∧ fp = [] then none
      else
        match (if ip = [] then some 0 else parseDigitsAux 0 ip),
              (if fp = [] then some 0 else parseDigitsAux 0 fp) with
        | some iv, some fv => some ((iv : ℚ) + (fv : ℚ) / (10 : ℚ) ^ fp.length)
        | _, _ => none

/-- Model of Python `float(s)` on the plain decimal strings the NMEA fields
use: optional sign, digits, optional fractional part. -/
def pyFloat : List Char → Option ℚ
  | '-' :: r => (pyUFloat r).map Neg.neg
  | '+' :: r => pyUFloat r
  | l => pyUFloat l

/-- Python `s.split(sep)` semantics: always returns `count sep + 1` pieces. -/
def splitOnChar (sep : Char) : List Char → List (List Char)
  | [] => [[]]
  | c :: rest =>
    let r := splitOnChar sep rest
    if c = sep then [] :: r
    else
      match r with
      | [] => [[c]]
      | h :: t => (c :: h) :: t

theorem splitOnChar_length (sep : Char) (l : List Char) :
    (splitOnChar sep l).length = l.count sep + 1 := by
  induction l with
  | nil => simp [splitOnChar]
  | cons c rest ih =>
    by_cases h : c = sep
    · simp [splitOnChar, h, List.count_cons, ih]
    · cases hr : splitOnChar sep rest with
      | nil => rw [hr] at ih; simp at ih
      | cons a t =>
        rw [hr] at ih
        simp only [List.length_cons] at ih
        simp [splitOnChar, h, hr, List.count_cons, ← ih]

theorem splitOnChar_ne_nil (sep : Char) (l : List Char) :
    splitOnChar sep l ≠ [] := by
  intro h
  have := splitOnChar_length sep l
  rw [h] at this
  simp at this

/-! ## GPS data model (gps_controller.py) -/

/-- `GPSStatus` enum. -/
inductive GPSStatus
  | disconnected
  | connecting
  | connected
  | fixing
  | fixed
  | error
deriving DecidableEq, Repr

/-- `GPSPosition` dataclass (the `timestamp` field, a wall-clock `datetime`
used only for display, is omitted). -/
structure GPSPosition where
  latitude : ℚ := 0
  longitude : ℚ := 0
  altitude : ℚ := 0
  speed : ℚ := 0
  course : ℚ := 0
  satellites : ℤ := 0
  hdop : ℚ := 0
  fix_quality : ℤ := 0
  is_valid : Bool := false
deriving DecidableEq, Repr

/-- The decoder state shared by the parsers: connection status plus the
current position record. -/
structure GPSState where
  status : GPSStatus
  position : GPSPosition
deriving DecidableEq, Repr

/-- Fresh controller state (`status = DISCONNECTED`, default position). -/
def GPSState.init : GPSState := { status := GPSStatus.disconnected, position := {} }

/-- Field extraction of `_parse_gpgga`: fix quality, satellites, HDOP,
altitude, latitude, longitude.  `none` models a raised exception (the whole
update is then skipped). -/
def gpggaData (parts : List (List Char)) : Option (ℤ × ℤ × ℚ × ℚ × ℚ × ℚ) := do
  let fq ← if parts.getD 6 [] = [] then some 0 else pyInt (parts.getD 6 [])
  let sats ← if parts.getD 7 [] = [] then some 0 else pyInt (parts.getD 7 [])
  let hdop ← if parts.getD 8 [] = [] then some 0 else pyFloat (parts.getD 8 [])
  let alt ← if parts.getD 9 [] = [] then some 0 else pyFloat (parts.getD 9 [])
  let latlng ←
    if parts.getD 2 [] ≠ [] ∧ parts.getD 3 [] ≠ [] ∧
        parts.getD 4 [] ≠ [] ∧ parts.getD 5 [] ≠ [] then do
      let latDeg ← pyFloat ((parts.getD 2 []).take 2)
      let latMin ← pyFloat ((parts.getD 2 []).drop 2)
      let lat0 := latDeg + latMin / 60
      let lat := if parts.getD 3 [] = ['S'] then -lat0 else lat0
      let lonDeg ← pyFloat ((parts.getD 4 []).take 3)
      let lonMin ← pyFloat ((parts.getD 4 []).drop 3)
      let lon0 := lonDeg + lonMin / 60
      let lon := if parts.getD 5 [] = ['W'] then -lon0 else lon0
      pure (lat, lon)
    else pure ((0 : ℚ), (0 : ℚ))
  pure (fq, sats, hdop, alt, latlng.1, latlng.2)

/-- `L76KGPSController._parse_gpgga` (fix-data frame). -/
def parse_gpgga (sentence : List Char) (st : GPSState) : GPSState :=
  let parts := splitOnChar ',' sentence
  if parts.length < 15 then st
  else
    match gpggaData parts with
    | none => st
    | some (fq, sats, hdop, alt, lat, lon) =>
      { status :=
          if 0 < fq then GPSStatus.fixed
          else if st.status = GPSStatus.connected then GPSStatus.fixing
          else st.status
        position :=
          { st.position with
            latitude := lat, longitude := lon, fix_quality := fq,
            satellites := sats, hdop := hdop, altitude := alt,
            is_valid := decide (0 < fq) } }

/-- Field extraction of `_parse_gprmc`: optional latitude/longitude (only
bound when the raw field and hemisphere are non-empty, mirroring the
`'latitude' in locals()` check), speed, course. -/
def gprmcData (parts : List (List Char)) : Option (Option ℚ × Option ℚ × ℚ × ℚ) := do
  let lat ←
    if parts.getD 3 [] ≠ [] ∧ parts.getD 4 [] ≠ [] then do
      let d ← pyFloat ((parts.getD 3 []).take 2)
      let m ← pyFloat ((parts.getD 3 []).drop 2)
      let v := d + m / 60
      pure (some (if parts.getD 4 [] = ['S'] then -v else v))
    else pure none
  let lon ←
    if parts.getD 5 [] ≠ [] ∧ parts.getD 6 [] ≠ [] then do
      let d ← pyFloat ((parts.getD 5 []).take 3)
      let m ← pyFloat ((parts.getD 5 []).drop 3)
      let v := d + m / 60
      pure (some (if parts.getD 6 [] = ['W'] then -v else v))
    else pure none
  let speed ← if parts.getD 7 [] = [] then pure 0 else pyFloat (parts.getD 7 [])
  let course ← if parts.getD 8 [] = [] then pure 0 else pyFloat (parts.getD 8 [])
  pure (lat, lon, speed, course)

/-- `L76KGPSController._parse_gprmc` (minimum-recommended frame). -/
def parse_gprmc (sentence : List Char) (st : GPSState) : GPSState :=
  let parts := splitOnChar ',' sentence
  if parts.length < 12 then st
  else if parts.getD 2 [] ≠ ['A'] then st
  else
    match gprmcData parts with
    | none => st
    | some (lat, lon, speed, course) =>
      { st with
        position :=
          { st.position with
            latitude := lat.getD st.position.latitude,
            longitude := lon.getD st.position.longitude,
            speed := speed, course := course, is_valid := true } }

/-- Field extraction of `_parse_gpgll`: optional latitude/longitude. -/
def gpgllData (parts : List (List Char)) : Option (Option ℚ × Option ℚ) := do
  let lat ←
    if parts.getD 1 [] ≠ [] ∧ parts.getD 2 [] ≠ [] then do
      let d ← pyFloat ((parts.getD 1 []).take 2)
      let m ← pyFloat ((parts.getD 1 []).drop 2)
      let v := d + m / 60
      pure (some (if parts.getD 2 [] = ['S'] then -v else v))
    else pure none
  let lon ←
    if parts.getD 3 [] ≠ [] ∧ parts.getD 4 [] ≠ [] then do
      let d ← pyFloat ((parts.getD 3 []).take 3)
      let m ← pyFloat ((parts.getD 3 []).drop 3)
      let v := d + m / 60
      pure (some (if parts.getD 4 [] = ['W'] then -v else v))
    else pure none
  pure (lat, lon)

/-- `L76KGPSController._parse_gpgll` (geographic-position frame). -/
def parse_gpgll (sentence : List Char) (st : GPSState) : GPSState :=
  let parts := splitOnChar ',' sentence
  if parts.length < 7 then st
  else if parts.getD 6 [] ≠ ['A'] then st
  else
    match gpgllData parts with
    | none => st
    | some (lat, lon) =>
      { st with
        position :=
          { st.position with
            latitude := lat.getD st.position.latitude,
            longitude := lon.getD st.position.longitude,
            is_valid := true } }

/-- `L76KGPSController._parse_gpvtg` (track / ground-speed frame): km/h
converted to m/s by dividing by 3.6. -/
def parse_gpvtg (sentence : List Char) (st : GPSState) : GPSState :=
  let parts := splitOnChar ',' sentence
  if parts.length < 10 then st
  else
    match (if parts.getD 7 [] = [] then some 0 else pyFloat (parts.getD 7 [])) with
    | none => st
    | some kmh =>
      { st with position := { st.position with speed := kmh / (36 / 10) } }

/-- `L76KGPSController._process_nmea_sentence`: sentinel check, split at
`'*'` (a line without a checksum delimiter is dropped), dispatch on the
command extracted from the first comma-field. -/
def process_nmea_sentence (sentence : List Char) (st : GPSState) : GPSState :=
  match sentence with
  | [] => st
  | c :: rest =>
    if c ≠ '$' then st
    else
      let parts := splitOnChar '*' rest
      if parts.length < 2 then st
      else
        let command := (splitOnChar ',' (parts.getD 0 [])).getD 0 []
        if command = "GPGGA".data ∨ command = "GNGGA".data then parse_gpgga sentence st
        else if command = "GPRMC".data ∨ command = "GNRMC".data then parse_gprmc sentence st
        else if command = "GPGLL".data ∨ command = "GNGLL".data then parse_gpgll sentence st
        else if command = "GPVTG".data ∨ command = "GNVTG".data then parse_gpvtg sentence st
        else st

/-! ## MQTT fallback position (speedcams_controller.py) -/

/-- Payload of a PWA position message, as read by
`SpeedCamsController._get_position_from_mqtt` (`get` with defaults). -/
structure MqttPositionMsg where
  latitude : Option ℚ
  longitude : Option ℚ
  altitude : ℚ := 0
  speed : ℚ := 0
  course : ℚ := 0
  satellites : ℤ := 0
  hdop : ℚ := 0
  fix_quality : ℤ := 0
deriving DecidableEq, Repr

/-- `SpeedCamsController._get_position_from_mqtt`: returns the last injected
position, but only when one exists and is at most 15 minutes old; the
constructed fix is unconditionally marked valid. -/
def get_position_from_mqtt (last_mqtt_position : Option MqttPositionMsg)
    (last_mqtt_position_time : Option ℚ) (now : ℚ) : Option GPSPosition :=
  match last_mqtt_position, last_mqtt_position_time with
  | some msg, some t =>
    if now - t > 15 * 60 then none
    else
      match msg.latitude, msg.longitude with
      | some lat, some lng =>
        some { latitude := lat, longitude := lng, altitude := msg.altitude,
               speed := msg.speed, course := msg.course, satellites := msg.satellites,
               hdop := msg.hdop, fix_quality := msg.fix_quality, is_valid := true }
      | _, _ => none
  | _, _ => none

/-! ## Claims C3 and C9 -/

/-- The reference GGA sentence of the spec's test vector. -/
def ggaSentence : List Char :=
  "$GPGGA,123519,4807.038,N,01131.000,E,1,08,0.9,545.4,M,46.9,M,,*47".data

/-- A standard active RMC sentence. -/
def rmcSentence : List Char :=
  "$GPRMC,123519,A,4807.038,N,01131.000,E,022.4,084.4,230394,003.1,W*6A".data

/-- C3 counterexample: parsing a minimum-recommended (RMC) frame with status
`A` on a fresh decoder state leaves `fix_quality = 0` while setting
`is_valid = true` (and `_parse_gprmc` never touches `fix_quality` at all),
so `validity == true` does not imply `fix-quality > 0`. -/
theorem rmc_sets_valid_with_zero_fix_quality :
    (process_nmea_sentence rmcSentence GPSState.init).position.is_valid = true ∧
    (process_nmea_sentence rmcSentence GPSState.init).position.fix_quality = 0 := by
  constructor <;>
    simp +decide [rmcSentence, process_nmea_sentence, parse_gprmc, gprmcData,
      splitOnChar, pyInt, pyFloat, pyUFloat, breakDot, parseDigitsAux, digitVal,
      GPSState.init]

/-- C3 (amended): after a fix-data (GGA) parse the state is either unchanged
or has `validity = (fix-quality > 0)`; the RMC and GLL parsers and the MQTT
fallback set validity to `true` unconditionally on their success paths, so
validity implies neither `fix-quality > 0` nor non-zero coordinates. -/
theorem validity_invariant_amended :
    (∀ (s : List Char) (st : GPSState),
      parse_gpgga s st = st ∨
      (parse_gpgga s st).position.is_valid =
        decide (0 < (parse_gpgga s st).position.fix_quality)) ∧
    (∀ (s : List Char) (st : GPSState),
      parse_gprmc s st = st ∨ (parse_gprmc s st).position.is_valid = true) ∧
    (∀ (s : List Char) (st : GPSState),
      parse_gpgll s st = st ∨ (parse_gpgll s st).position.is_valid = true) ∧
    (∀ (m : Option MqttPositionMsg) (t : Option ℚ) (now : ℚ) (p : GPSPosition),
      get_position_from_mqtt m t now = some p → p.is_valid = true) := by
  refine ⟨fun s st => ?_, fun s st => ?_, fun s st => ?_, fun m t now p h => ?_⟩
  · by_cases h15 : (splitOnChar ',' s).length < 15
    · left; simp [parse_gpgga, h15]
    · cases hd : gpggaData (splitOnChar ',' s) with
      | none => left; simp [parse_gpgga, h15, hd]
      | some d =>
        obtain ⟨fq, sats, hdop, alt, lat, lon⟩ := d
        right; simp [parse_gpgga, h15, hd]
  · by_cases h12 : (splitOnChar ',' s).length < 12
    · left; simp [parse_gprmc, h12]
    · by_cases hA : ((splitOnChar ',' s)[2]?).getD [] = ['A']
      · cases hd : gprmcData (splitOnChar ',' s) with
        | none => left; simp [parse_gprmc, h12, hA, hd]
        | some d =>
          obtain ⟨lat, lon, speed, course⟩ := d
          right; simp [parse_gprmc, h12, hA, hd]
      · left; simp [parse_gprmc, h12, hA]
  · by_cases h7 : (splitOnChar ',' s).length < 7
    · left; simp [parse_gpgll, h7]
    · by_cases hA : ((splitOnChar ',' s)[6]?).getD [] = ['A']
      · cases hd : gpgllData (splitOnChar ',' s) with
        | none => left; simp [parse_gpgll, h7, hA, hd]
        | some d =>
          obtain ⟨lat, lon⟩ := d
          right; simp [parse_gpgll, h7, hA, hd]
      · left; simp [parse_gpgll, h7, hA]
  · unfold get_position_from_mqtt at h
    split at h
    · split at h
      · exact absurd h (by simp)
      · split at h
        · injection h with h'
          rw [← h']
        · exact absurd h (by simp)
    · exact absurd h (by simp)

/-- An example PWA position message with no `fix_quality` key. -/
def mqttMsgExample : MqttPositionMsg :=
  { latitude := some 45, longitude := some 9 }

/-- The fix the MQTT fallback builds from `mqttMsgExample`. -/
def mqttFixExample : GPSPosition :=
  { latitude := 45, longitude := 9, is_valid := true }

theorem validity_invariant_amended_witness :
    get_position_from_mqtt (some mqttMsgExample) (some 0) 10 = some mqttFixExample ∧
    mqttFixExample.is_valid = true :=
  ⟨by norm_num [get_position_from_mqtt, mqttMsgExample, mqttFixExample],
   validity_invariant_amended.2.2.2 (some mqttMsgExample) (some 0) 10 mqttFixExample
     (by norm_num [get_position_from_mqtt, mqttMsgExample, mqttFixExample])⟩

/-- The position record produced by parsing `ggaSentence` from a fresh state. -/
def ggaFixExpected : GPSPosition :=
  { latitude := 481173/10000, longitude := 691/60, altitude := 5454/10,
    speed := 0, course := 0, satellites := 8, hdop := 9/10, fix_quality := 1,
    is_valid := true }

/-- C9: the reference GGA sentence yields latitude 48.1173°, longitude
`691/60 ≈ 11.5167°`, fix-quality 1, 8 satellites, HDOP 0.9 and altitude
545.4 m (DDMM.MMMM decoded as degrees + minutes/60); and any line without
the `'*'` checksum delimiter is dropped with no state change (the embedding
is total, so no exception can escape the read loop). -/
theorem gpgga_reference_sentence_and_starless_drop :
    ((process_nmea_sentence ggaSentence GPSState.init).position = ggaFixExpected ∧
      |(691 : ℚ)/60 - 115167/10000| < 1/10000) ∧
    (∀ (sentence : List Char) (st : GPSState), '*' ∉ sentence →
      process_nmea_sentence sentence st = st) := by
  refine ⟨⟨?_, by rw [abs_lt]; constructor <;> norm_num⟩, fun sentence st h => ?_⟩
  · simp +decide [ggaSentence, process_nmea_sentence, parse_gpgga, gpggaData,
      splitOnChar, pyInt, pyFloat, pyUFloat, breakDot, parseDigitsAux, digitVal,
      GPSState.init, ggaFixExpected]
    norm_num
  · cases sentence with
    | nil => rfl
    | cons c rest =>
      have hrest : '*' ∉ rest := fun hm => h (List.mem_cons_of_mem c hm)
      have hcount : rest.count '*' = 0 := List.count_eq_zero.mpr hrest
      have hlen : (splitOnChar '*' rest).length = 1 := by
        rw [splitOnChar_length, hcount]
      by_cases hc : c = '$'
      · unfold process_nmea_sentence
        simp [hc, hlen]
      · unfold process_nmea_sentence
        simp [hc]

/-- A line with no `'*'`: dropped without touching the state. -/
theorem gpgga_starless_drop_witness :
    process_nmea_sentence "$GPGGA,123519,4807.038,N".data GPSState.init = GPSState.init :=
  gpgga_reference_sentence_and_starless_drop.2 "$GPGGA,123519,4807.038,N".data
    GPSState.init (by decide)

/-! ## Proximity alert engine (speedcams_controller.py)

The dataset record carries the fields the controller reads (`id`, `lat`,
`lng`) plus the descriptive fields (`type`, `vmax`, `status`) that the
detection scan never consults. -/

structure Speedcam where
  id : Option ℤ
  lat : Option ℚ
  lng : Option ℚ
  sctype : Option ℤ := none
  vmax : Option ℤ := none
  status : Option ℤ := none
deriving DecidableEq, Repr

/-- Detection (anti-duplicate) state of the controller. -/
structure DetectionState where
  last_detected_speedcam_id : Option ℤ
  last_detected_distance : Option ℚ
deriving DecidableEq, Repr

/-- Observable outcome of one scan: a full alert
(`_notify_speedcam_detected`: log + MQTT + display), a display-only distance
update, or the alert being cleared on radius exit. -/
inductive SpeedcamEvent
  | alertRaised (cam : Speedcam) (distance : ℚ)
  | alertDistanceChanged (distance : ℚ)
  | alertCleared
deriving DecidableEq, Repr

section SpeedcamsSection

variable (calculate_distance : ℚ → ℚ → ℚ → ℚ → ℚ)

/-- The nearest-within-radius loop of `_detect_speedcam`: records with a
missing coordinate are skipped; a candidate replaces the accumulator only
when within `radius` and strictly closer than the best so far. -/
def closestAcc (pos : GPSPosition) (radius : ℚ) :
    List Speedcam → Option (Speedcam × ℚ) → Option (Speedcam × ℚ)
  | [], acc => acc
  | cam :: rest, acc =>
    match cam.lat, cam.lng with
    | some la, some lo =>
      let d := calculate_distance pos.latitude pos.longitude la lo
      let isCloser : Bool :=
        decide (d ≤ radius) && acc.elim true (fun p => decide (d < p.2))
      if isCloser then closestAcc pos radius rest (some (cam, d))
      else closestAcc pos radius rest acc
    | _, _ => closestAcc pos radius rest acc

/-- Nearest dataset record within `radius` of `pos`, with its distance. -/
def closest_within_radius (pos : GPSPosition) (radius : ℚ)
    (cams : List Speedcam) : Option (Speedcam × ℚ) :=
  closestAcc calculate_distance pos radius cams none

/-- `SpeedCamsController._detect_speedcam`: nearest-within-radius selection
followed by the hysteresis classification against the detection state.
Returns the new detection state, the emitted event (if any) and the value
returned to the caller. -/
def detect_speedcam (cams : List Speedcam) (pos : GPSPosition) (radius : ℚ)
    (st : DetectionState) :
    DetectionState × Option SpeedcamEvent × Option (Speedcam × ℚ) :=
  if cams = [] then (st, none, none)
  else
    match closest_within_radius calculate_distance pos radius cams with
    | none =>
      if st.last_detected_speedcam_id ≠ none then
        ({ last_detected_speedcam_id := none, last_detected_distance := none },
         some SpeedcamEvent.alertCleared, none)
      else (st, none, none)
    | some (cam, d) =>
      let shouldDetect : Bool :=
        if st.last_detected_speedcam_id = none then true
        else if cam.id ≠ st.last_detected_speedcam_id then true
        else
          match st.last_detected_distance with
          | some prev => decide (50 ≤ prev - d)
          | none => false
      let shouldUpdate : Bool :=
        if st.last_detected_speedcam_id = none then false
        else if cam.id ≠ st.last_detected_speedcam_id then false
        else
          match st.last_detected_distance with
          | some prev => decide (prev - d < 50) && decide (10 ≤ |prev - d|)
          | none => false
      if shouldDetect then
        ({ last_detected_speedcam_id := cam.id, last_detected_distance := some d },
         some (SpeedcamEvent.alertRaised cam d), some (cam, d))
      else if shouldUpdate then
        ({ st with last_detected_distance := some d },
         some (SpeedcamEvent.alertDistanceChanged d), some (cam, d))
      else (st, none, none)

end SpeedcamsSection

/-! ## Claim C1: proximity hysteresis -/

/-- C1: classification of a nearest-within-radius record against the
detection state: new/different id ⇒ full alert and state update; same id
closing by ≥ 50 m ⇒ full alert again; same id with an absolute change ≥ 10 m
but a closing change < 50 m ⇒ distance-only update touching only the stored
distance; otherwise no event and no state change; and with no record within
radius while one was tracked, the state resets to no-detection. -/
theorem detect_speedcam_hysteresis
    (calculate_distance : ℚ → ℚ → ℚ → ℚ → ℚ)
    (cams : List Speedcam) (pos : GPSPosition) (radius : ℚ)
    (st : DetectionState) (cam : Speedcam) (d : ℚ)
    (hne : cams ≠ []) :
    (closest_within_radius calculate_distance pos radius cams = some (cam, d) →
      ((st.last_detected_speedcam_id = none ∨ cam.id ≠ st.last_detected_speedcam_id) →
        detect_speedcam calculate_distance cams pos radius st =
          ({ last_detected_speedcam_id := cam.id, last_detected_distance := some d },
           some (SpeedcamEvent.alertRaised cam d), some (cam, d))) ∧
      (∀ (i : ℤ) (prev : ℚ), st.last_detected_speedcam_id = some i → cam.id = some i →
        st.last_detected_distance = some prev → 50 ≤ prev - d →
        detect_speedcam calculate_distance cams pos radius st =
          ({ last_detected_speedcam_id := some i, last_detected_distance := some d },
           some (SpeedcamEvent.alertRaised cam d), some (cam, d))) ∧
      (∀ (i : ℤ) (prev : ℚ), st.last_detected_speedcam_id = some i → cam.id = some i →
        st.last_detected_distance = some prev → prev - d < 50 → 10 ≤ |prev - d| →
        detect_speedcam calculate_distance cams pos radius st =
          ({ st with last_detected_distance := some d },
           some (SpeedcamEvent.alertDistanceChanged d), some (cam, d))) ∧
      (∀ (i : ℤ), st.last_detected_speedcam_id = some i → cam.id = some i →
        (∀ prev, st.last_detected_distance = some prev → prev - d < 50 ∧ |prev - d| < 10) →
        detect_speedcam calculate_distance cams pos radius st = (st, none, none))) ∧
    (closest_within_radius calculate_distance pos radius cams = none →
      st.last_detected_speedcam_id ≠ none →
      detect_speedcam calculate_distance cams pos radius st =
        ({ last_detected_speedcam_id := none, last_detected_distance := none },
         some SpeedcamEvent.alertCleared, none)) := by
  constructor
  · intro hclosest
    refine ⟨fun hnew => ?_, fun i prev hi hc hp h50 => ?_,
            fun i prev hi hc hp hlt habs => ?_, fun i hi hc hall => ?_⟩
    · rcases hnew with hnone | hdiff
      · simp [detect_speedcam, hne, hclosest, hnone]
      · by_cases hn : st.last_detected_speedcam_id = none
        · simp [detect_speedcam, hne, hclosest, hn]
        · simp [detect_speedcam, hne, hclosest, hn, hdiff]
    · simp [detect_speedcam, hne, hclosest, hi, hc, hp, h50]
    · simp [detect_speedcam, hne, hclosest, hi, hc, hp, not_le.mpr hlt,
        not_le.mpr hlt, habs]
    · cases hp : st.last_detected_distance with
      | none => simp [detect_speedcam, hne, hclosest, hi, hc, hp]
      | some prev =>
        obtain ⟨h1, h2⟩ := hall prev hp
        simp [detect_speedcam, hne, hclosest, hi, hc, hp, h1, not_le.mpr h2]
  · intro hclosest hid
    simp [detect_speedcam, hne, hclosest, hid]

/-- A record used by the concrete hysteresis scenarios. -/
def camExample : Speedcam :=
  { id := some 7, lat := some 3, lng := some 4, status := some 0 }

/-- Taxicab metric on raw coordinates, a computable stand-in distance
oracle for concrete scenarios. -/
def taxiDistance (lat1 lon1 lat2 lon2 : ℚ) : ℚ :=
  |lat2 - lat1| + |lon2 - lon1|

/-- A valid fix at the origin. -/
def posExample : GPSPosition :=
  { latitude := 0, longitude := 0, is_valid := true }

theorem detect_speedcam_hysteresis_witness :
    detect_speedcam taxiDistance [camExample] posExample 1000
        { last_detected_speedcam_id := none, last_detected_distance := none } =
      ({ last_detected_speedcam_id := some 7, last_detected_distance := some 7 },
       some (SpeedcamEvent.alertRaised camExample 7), some (camExample, 7)) ∧
    detect_speedcam taxiDistance [camExample] posExample 5
        { last_detected_speedcam_id := some 7, last_detected_distance := some 900 } =
      ({ last_detected_speedcam_id := none, last_detected_distance := none },
       some SpeedcamEvent.alertCleared, none) := by
  constructor
  · exact ((detect_speedcam_hysteresis taxiDistance [camExample] posExample 1000
      { last_detected_speedcam_id := none, last_detected_distance := none }
      camExample 7 (by simp)).1
      (by norm_num [closest_within_radius, closestAcc, camExample, posExample,
        taxiDistance])).1 (Or.inl rfl)
  · exact (detect_speedcam_hysteresis taxiDistance [camExample] posExample 5
      { last_detected_speedcam_id := some 7, last_detected_distance := some 900 }
      camExample 7 (by simp)).2
      (by norm_num [closest_within_radius, closestAcc, camExample, posExample,
        taxiDistance]) (by simp)

/-! ## Claim C10: the detection scan never consults the status field -/

/-- Rewrite a record's `status` field (arbitrarily, per record). -/
def statusOverride (f : Speedcam → Option ℤ) (cam : Speedcam) : Speedcam :=
  { cam with status := f cam }

/-- Apply a record transformation to the record carried by an event. -/
def eventMapCam (g : Speedcam → Speedcam) : SpeedcamEvent → SpeedcamEvent
  | SpeedcamEvent.alertRaised cam d => SpeedcamEvent.alertRaised (g cam) d
  | e => e

theorem closestAcc_statusOverride
    (calculate_distance : ℚ → ℚ → ℚ → ℚ → ℚ) (f : Speedcam → Option ℤ)
    (pos : GPSPosition) (radius : ℚ) (cams : List Speedcam)
    (acc : Option (Speedcam × ℚ)) :
    closestAcc calculate_distance pos radius (cams.map (statusOverride f))
        (acc.map (fun p => (statusOverride f p.1, p.2))) =
      (closestAcc calculate_distance pos radius cams acc).map
        (fun p => (statusOverride f p.1, p.2)) := by
  induction cams generalizing acc with
  | nil => simp [closestAcc]
  | cons cam rest ih =>
    have hla : (statusOverride f cam).lat = cam.lat := rfl
    have hlo : (statusOverride f cam).lng = cam.lng := rfl
    simp only [List.map_cons, closestAcc, hla, hlo]
    cases cam.lat with
    | none => exact ih acc
    | some la =>
      cases cam.lng with
      | none => exact ih acc
      | some lo =>
        simp only
        have helim :
            (Option.map (fun p => (statusOverride f p.1, p.2)) acc).elim true
              (fun p => decide (calculate_distance pos.latitude pos.longitude la lo < p.2)) =
            acc.elim true
              (fun p => decide (calculate_distance pos.latitude pos.longitude la lo < p.2)) := by
          cases acc with
          | none => rfl
          | some p => rfl
        rw [helim]
        by_cases hc : (decide (calculate_distance pos.latitude pos.longitude la lo ≤ radius) &&
            acc.elim true
              (fun p => decide (calculate_distance pos.latitude pos.longitude la lo < p.2)) : Bool)
            = true
        · rw [if_pos hc, if_pos hc]
          have := ih (some (cam, calculate_distance pos.latitude pos.longitude la lo))
          simpa using this
        · rw [if_neg hc, if_neg hc]
          exact ih acc

/-- C10: rewriting every record's active/inactive `status` field changes
nothing in the scan: the detection state, the kind of event and the selected
distance are identical; only the copy of the record carried in the outputs
shows the rewritten status. An inactive record is selected and alerted on
exactly as an active one. -/
theorem detect_speedcam_ignores_status
    (calculate_distance : ℚ → ℚ → ℚ → ℚ → ℚ) (f : Speedcam → Option ℤ)
    (cams : List Speedcam) (pos : GPSPosition) (radius : ℚ)
    (st : DetectionState) :
    detect_speedcam calculate_distance (cams.map (statusOverride f)) pos radius st =
      ((detect_speedcam calculate_distance cams pos radius st).1,
       (detect_speedcam calculate_distance cams pos radius st).2.1.map
         (eventMapCam (statusOverride f)),
       (detect_speedcam calculate_distance cams pos radius st).2.2.map
         (fun p => (statusOverride f p.1, p.2))) := by
  have hmap : closest_within_radius calculate_distance pos radius
      (cams.map (statusOverride f)) =
      (closest_within_radius calculate_distance pos radius cams).map
        (fun p => (statusOverride f p.1, p.2)) := by
    simpa using closestAcc_statusOverride calculate_distance f pos radius cams none
  by_cases hnil : cams = []
  · subst hnil; simp [detect_speedcam]
  · have hnil' : cams.map (statusOverride f) ≠ [] := by simpa using hnil
    cases hclosest : closest_within_radius calculate_distance pos radius cams with
    | none =>
      rw [hclosest] at hmap
      by_cases hid : st.last_detected_speedcam_id = none
      · simp [detect_speedcam, hnil, hnil', hmap, hclosest, hid]
      · simp [detect_speedcam, hnil, hnil', hmap, hclosest, hid, eventMapCam]
    | some p =>
      obtain ⟨cam, d⟩ := p
      rw [hclosest] at hmap
      rw [Option.map_some'] at hmap
      simp only [detect_speedcam, if_neg hnil, if_neg hnil', hmap, hclosest]
      have hidp : (statusOverride f cam).id = cam.id := rfl
      by_cases h1 : st.last_detected_speedcam_id = none
      · simp [h1, eventMapCam, statusOverride]
      · by_cases h2 : cam.id ≠ st.last_detected_speedcam_id
        · simp [h1, h2, hidp, eventMapCam, statusOverride]
        · cases hp : st.last_detected_distance with
          | none => simp [h1, h2, hidp, hp, eventMapCam, statusOverride]
          | some prev =>
            by_cases h50 : 50 ≤ prev - d
            · simp [h1, h2, hidp, hp, h50, eventMapCam, statusOverride]
            · by_cases h10 : 10 ≤ |prev - d|
              · simp [h1, h2, hidp, hp, h50, h10, eventMapCam, statusOverride,
                  not_le.mp h50]
              · simp [h1, h2, hidp, hp, h50, h10, eventMapCam, statusOverride,
                  not_le.mp h50]

/-! ## Spatial primitive: point-to-segment distance (route_manager.py) -/

section SegmentSection

variable (calculate_distance : ℚ → ℚ → ℚ → ℚ → ℚ)

/-- `RouteManager._point_to_segment_distance`.  The source computes
`seg_length_deg = sqrt(dlat² + dlon²)` only to test it against zero and to
square it back in the denominator of `t`; the embedding therefore works with
the square directly (`sqrt x = 0` iff `x = 0`).  The unused
`dist_to_end` computation has no effect and is dropped. -/
def point_to_segment_distance (point seg_start seg_end : ℚ × ℚ) : ℚ :=
  let dist_to_start := calculate_distance point.1 point.2 seg_start.1 seg_start.2
  let seg_length := calculate_distance seg_start.1 seg_start.2 seg_end.1 seg_end.2
  if seg_length < 10 then
    let mid_lat := (seg_start.1 + seg_end.1) / 2
    let mid_lng := (seg_start.2 + seg_end.2) / 2
    calculate_distance point.1 point.2 mid_lat mid_lng
  else
    let dlat_seg := seg_end.1 - seg_start.1
    let dlon_seg := seg_end.2 - seg_start.2
    let dlat_point := point.1 - seg_start.1
    let dlon_point := point.2 - seg_start.2
    let seg_length_deg_sq := dlat_seg ^ 2 + dlon_seg ^ 2
    if seg_length_deg_sq = 0 then dist_to_start
    else
      let t := (dlat_point * dlat_seg + dlon_point * dlon_seg) / seg_length_deg_sq
      let tc := max 0 (min 1 t)
      let proj_lat := seg_start.1 + tc * dlat_seg
      let proj_lon := seg_start.2 + tc * dlon_seg
      calculate_distance point.1 point.2 proj_lat proj_lon

end SegmentSection

/-! ## Claim C8 -/

/-- The planar projection parameter `t` of `p` on segment `[a, b]`
(Lean's division convention makes it `0` for a degenerate segment). -/
def projParam (p a b : ℚ × ℚ) : ℚ :=
  ((p.1 - a.1) * (b.1 - a.1) + (p.2 - a.2) * (b.2 - a.2)) /
    ((b.1 - a.1) ^ 2 + (b.2 - a.2) ^ 2)

/-- C8: for every distance oracle, `point_to_segment_distance p a b` returns
the distance from `p` to the segment midpoint when the segment is shorter
than 10 m; otherwise it equals `calculate_distance p a` when the projection
parameter is below 0, `calculate_distance p b` when it exceeds 1, and 0
when `p` lies on the segment (given the oracle's self-distance is 0, as the
haversine's is). -/
theorem point_to_segment_distance_spec
    (calculate_distance : ℚ → ℚ → ℚ → ℚ → ℚ) (p a b : ℚ × ℚ) :
    (calculate_distance a.1 a.2 b.1 b.2 < 10 →
      point_to_segment_distance calculate_distance p a b =
        calculate_distance p.1 p.2 ((a.1 + b.1) / 2) ((a.2 + b.2) / 2)) ∧
    (10 ≤ calculate_distance a.1 a.2 b.1 b.2 → projParam p a b < 0 →
      point_to_segment_distance calculate_distance p a b =
        calculate_distance p.1 p.2 a.1 a.2) ∧
    (10 ≤ calculate_distance a.1 a.2 b.1 b.2 → 1 < projParam p a b →
      point_to_segment_distance calculate_distance p a b =
        calculate_distance p.1 p.2 b.1 b.2) ∧
    (10 ≤ calculate_distance a.1 a.2 b.1 b.2 →
      (∀ x y : ℚ, calculate_distance x y x y = 0) →
      ∀ s : ℚ, 0 ≤ s → s ≤ 1 →
      p = (a.1 + s * (b.1 - a.1), a.2 + s * (b.2 - a.2)) →
      point_to_segment_distance calculate_distance p a b = 0) := by
  refine ⟨fun hshort => ?_, fun hseg ht => ?_, fun hseg ht => ?_,
          fun hseg hrefl s hs0 hs1 hp => ?_⟩
  · simp only [point_to_segment_distance]
    rw [if_pos hshort]
  · have hden : (b.1 - a.1) ^ 2 + (b.2 - a.2) ^ 2 ≠ 0 := by
      intro h0
      rw [projParam, h0, div_zero] at ht
      exact lt_irrefl 0 ht
    simp only [point_to_segment_distance]
    rw [if_neg (not_lt.mpr hseg), if_neg hden]
    have hmin : min 1 (projParam p a b) = projParam p a b :=
      min_eq_right (le_of_lt (lt_trans ht zero_lt_one))
    have hmax : max 0 (min 1 (projParam p a b)) = 0 := by
      rw [hmin]; exact max_eq_left (le_of_lt ht)
    rw [show ((p.1 - a.1) * (b.1 - a.1) + (p.2 - a.2) * (b.2 - a.2)) /
        ((b.1 - a.1) ^ 2 + (b.2 - a.2) ^ 2) = projParam p a b from rfl, hmax]
    congr 1 <;> ring
  · have hden : (b.1 - a.1) ^ 2 + (b.2 - a.2) ^ 2 ≠ 0 := by
      intro h0
      rw [projParam, h0, div_zero] at ht
      exact absurd ht (by norm_num)
    simp only [point_to_segment_distance]
    rw [if_neg (not_lt.mpr hseg), if_neg hden]
    have hmin : min 1 (projParam p a b) = 1 := min_eq_left (le_of_lt ht)
    have hmax : max 0 (min 1 (projParam p a b)) = 1 := by
      rw [hmin]; exact max_eq_right zero_le_one
    rw [show ((p.1 - a.1) * (b.1 - a.1) + (p.2 - a.2) * (b.2 - a.2)) /
        ((b.1 - a.1) ^ 2 + (b.2 - a.2) ^ 2) = projParam p a b from rfl, hmax]
    congr 1 <;> ring
  · simp only [point_to_segment_distance]
    rw [if_neg (not_lt.mpr hseg)]
    by_cases hden : (b.1 - a.1) ^ 2 + (b.2 - a.2) ^ 2 = 0
    · rw [if_pos hden]
      have h1 : b.1 - a.1 = 0 := by nlinarith [sq_nonneg (b.1 - a.1), sq_nonneg (b.2 - a.2)]
      have h2 : b.2 - a.2 = 0 := by nlinarith [sq_nonneg (b.1 - a.1), sq_nonneg (b.2 - a.2)]
      have hp1 : p.1 = a.1 := by rw [hp]; simp [h1]
      have hp2 : p.2 = a.2 := by rw [hp]; simp [h2]
      rw [hp1, hp2, hrefl]
    · rw [if_neg hden]
      have hteq : ((p.1 - a.1) * (b.1 - a.1) + (p.2 - a.2) * (b.2 - a.2)) /
          ((b.1 - a.1) ^ 2 + (b.2 - a.2) ^ 2) = s := by
        rw [hp]
        field_simp
        ring
      rw [hteq]
      have hclamp : max 0 (min 1 s) = s := by
        rw [min_eq_right hs1, max_eq_right hs0]
      rw [hclamp]
      have hproj1 : a.1 + s * (b.1 - a.1) = p.1 := by rw [hp]
      have hproj2 : a.2 + s * (b.2 - a.2) = p.2 := by rw [hp]
      rw [hproj1, hproj2, hrefl]

theorem point_to_segment_distance_spec_witness :
    point_to_segment_distance taxiDistance (0, 3) (0, 0) (0, 5) =
      taxiDistance 0 3 0 (5 / 2) ∧
    point_to_segment_distance taxiDistance (0, -5) (0, 0) (0, 20) = 5 ∧
    point_to_segment_distance taxiDistance (0, 25) (0, 0) (0, 20) = 5 ∧
    point_to_segment_distance taxiDistance (0, 10) (0, 0) (0, 20) = 0 := by
  refine ⟨?_, ?_, ?_, ?_⟩
  · have h := (point_to_segment_distance_spec taxiDistance (0, 3) (0, 0) (0, 5)).1
      (by norm_num [taxiDistance])
    simpa using h
  · have h := (point_to_segment_distance_spec taxiDistance (0, -5) (0, 0) (0, 20)).2.1
      (by norm_num [taxiDistance]) (by norm_num [projParam])
    rw [h]; norm_num [taxiDistance]
  · have h := (point_to_segment_distance_spec taxiDistance (0, 25) (0, 0) (0, 20)).2.2.1
      (by norm_num [taxiDistance]) (by norm_num [projParam])
    rw [h]; norm_num [taxiDistance]
  · exact (point_to_segment_distance_spec taxiDistance (0, 10) (0, 0) (0, 20)).2.2.2
      (by norm_num [taxiDistance]) (fun x y => by simp [taxiDistance])
      (1/2) (by norm_num) (by norm_num) (by norm_num)

/-! ## Route tracker data model (route_manager.py)

Route payloads arrive as untyped dicts; the embedding gives them structures
whose `Option` fields model missing keys.  The dict key `end` is embedded as
`endc` and the key `type` as `rtype` (both are Lean keywords). -/

/-- A step anchor entry (`{'lat': ..., 'lng': ...}` dict, keys may miss). -/
structure CoordDict where
  lat : Option ℚ := none
  lng : Option ℚ := none
deriving DecidableEq, Repr

/-- A step's anchor set: `start`, `end`, `geometry` ([lat, lng] points). -/
structure StepCoordsData where
  start : Option CoordDict := none
  endc : Option CoordDict := none
  geometry : List (ℚ × ℚ) := []
deriving DecidableEq, Repr

/-- A step's `maneuver` dict (`type`, `modifier`, `bearing`). -/
structure ManeuverData where
  mtype : String := ""
  modifier : String := ""
  bearing : Option ℚ := none
deriving DecidableEq, Repr

/-- One entry of a route message's `steps` array. -/
structure StepData where
  instruction : String := ""
  distance : ℚ := 0
  duration : ℤ := 0
  maneuver : ManeuverData := {}
  icon : String := ""
  coordinates : StepCoordsData := {}
deriving DecidableEq, Repr

/-- A route message in the MQTT format consumed by `set_route` and produced
by `recalculate_route`.  Log-only fields (`origin` display string,
`timestamp`, `old_route`) are omitted: nothing reads them back. -/
structure RouteData where
  rtype : String := "route"
  destination : Option String := none
  destCoords : Option (ℚ × ℚ) := none
  originCoords : Option (ℚ × ℚ) := none
  totalDistance : ℤ := 0
  totalDuration : ℤ := 0
  routeGeometry : List (ℚ × ℚ) := []
  steps : List StepData := []
  recalculated : Bool := false
deriving DecidableEq, Repr

/-- `RouteStep` dataclass. -/
structure RouteStep where
  index : ℕ
  instruction : String
  distance : ℚ
  duration : ℤ
  maneuver : ManeuverData
  icon : String
  coordinates : StepCoordsData
  bearing : Option ℚ
deriving DecidableEq, Repr

/-- `RouteDeviation` dataclass (wall-clock `timestamp` omitted). -/
structure RouteDeviation where
  distance : ℚ
  threshold_warning : ℚ := 50
  threshold_recalculate : ℚ := 100
  is_deviated : Bool := false
deriving DecidableEq, Repr

/-- The `stats` counters of the route manager. -/
structure RMStats where
  step_updates : ℕ := 0
  deviation_checks : ℕ := 0
  warnings : ℕ := 0
  recalculate_requests : ℕ := 0
  recalculate_success : ℕ := 0
  recalculate_failed : ℕ := 0
deriving DecidableEq, Repr

/-- `RouteManager` mutable state (configuration fields included; the Mapbox
URL/profile/language strings, used only to build the request, are omitted). -/
structure RMState where
  current_route : Option RouteData := none
  route_steps : List RouteStep := []
  route_geometry : List (ℚ × ℚ) := []
  destination_coords : Option (ℚ × ℚ) := none
  destination_address : Option String := none
  current_step_index : ℤ := -1
  current_step : Option RouteStep := none
  last_step_update_time : ℚ := 0
  step_update_interval : ℚ := 5
  deviation_threshold_warning : ℚ := 50
  deviation_threshold_recalculate : ℚ := 100
  deviation : Option RouteDeviation := none
  mapbox_enabled : Bool := true
  mapbox_access_token : Option (List Char) := none
  recalculating : Bool := false
  last_recalculate_time : ℚ := 0
  recalculate_cooldown : ℚ := 30
  stats : RMStats := {}
deriving DecidableEq, Repr

/-- `RouteManager.set_route`: validates the message type, replaces the
route/geometry/steps, saves the destination and resets step and deviation
state.  Returns the updated state and the success flag. -/
def set_route (rd : RouteData) (st : RMState) : RMState × Bool :=
  if rd.rtype ≠ "route" then (st, false)
  else
    let steps := (rd.steps.enum).map (fun p =>
      { index := p.1, instruction := p.2.instruction, distance := p.2.distance,
        duration := p.2.duration, maneuver := p.2.maneuver, icon := p.2.icon,
        coordinates := p.2.coordinates,
        bearing := p.2.maneuver.bearing : RouteStep })
    ({ st with
        current_route := some rd,
        route_geometry := rd.routeGeometry,
        route_steps := steps,
        destination_coords := rd.destCoords,
        destination_address := rd.destination,
        current_step_index := -1,
        current_step := none,
        deviation := none }, true)

/-! ### Step matching (`calculate_current_step`) -/

/-- The anchor-candidate chain of `calculate_current_step`: `start` if its
`lat` is truthy, else `end` if its `lat` is truthy, else the first geometry
point.  Python truthiness: a missing or zero `lat` rejects the entry. -/
def stepAnchorCandidate (c : StepCoordsData) : Option (Option ℚ × Option ℚ) :=
  let fromStart :=
    match c.start with
    | some cd => if optTruthy cd.lat then some (cd.lat, cd.lng) else none
    | none => none
  match fromStart with
  | some x => some x
  | none =>
    let fromEnd :=
      match c.endc with
      | some cd => if optTruthy cd.lat then some (cd.lat, cd.lng) else none
      | none => none
    match fromEnd with
    | some x => some x
    | none =>
      match c.geometry with
      | p :: _ => some (some p.1, some p.2)
      | [] => none

/-- The matched anchor of a step: the candidate, with the final
`lat == 0 or lng == 0` skip applied (`get('lat', 0)` defaulting). -/
def stepAnchor (c : StepCoordsData) : Option (ℚ × ℚ) :=
  match stepAnchorCandidate c with
  | none => none
  | some (la, lo) =>
    let lat := la.getD 0
    let lng := lo.getD 0
    if lat = 0 ∨ lng = 0 then none else some (lat, lng)

section RouteSection

variable (calculate_distance : ℚ → ℚ → ℚ → ℚ → ℚ)

/-- Distance from the fix to a step's anchor, multiplied by 1.5 when the fix
course and the step bearing are both truthy (non-zero, non-null) and their
angular difference wrapped to ≤ 180° exceeds 90°. -/
def penalizedDistance (pos : GPSPosition) (step : RouteStep) (anchor : ℚ × ℚ) : ℚ :=
  let distance := calculate_distance pos.latitude pos.longitude anchor.1 anchor.2
  match step.bearing with
  | some b =>
    if pos.course ≠ 0 ∧ b ≠ 0 then
      let diff0 := |pos.course - b|
      let diff := if 180 < diff0 then 360 - diff0 else diff0
      if 90 < diff then distance * (3 / 2) else distance
    else distance
  | none => distance

/-- The selection loop of `calculate_current_step`: anchored steps enter the
running minimum under a strict `<` comparison (first minimum wins). -/
def findClosestAux (pos : GPSPosition) :
    List (ℕ × RouteStep) → Option (ℕ × RouteStep × ℚ) → Option (ℕ × RouteStep × ℚ)
  | [], acc => acc
  | (i, s) :: rest, acc =>
    match stepAnchor s.coordinates with
    | none => findClosestAux pos rest acc
    | some anchor =>
      let d := penalizedDistance calculate_distance pos s anchor
      if acc.elim true (fun b => decide (d < b.2.2)) then
        findClosestAux pos rest (some (i, s, d))
      else findClosestAux pos rest acc

/-- Nearest step (enumerate index, step, penalized distance) to the fix. -/
def find_closest_step (pos : GPSPosition) (steps : List RouteStep) :
    Option (ℕ × RouteStep × ℚ) :=
  findClosestAux calculate_distance pos steps.enum none

/-! ### Deviation (`calculate_route_distance`, `check_deviation`) -/

/-- The running minimum over consecutive polyline segments. -/
def minSegAux (pos : GPSPosition) :
    List ((ℚ × ℚ) × (ℚ × ℚ)) → Option ℚ → Option ℚ
  | [], acc => acc
  | (p1, p2) :: rest, acc =>
    let d := point_to_segment_distance calculate_distance
      (pos.latitude, pos.longitude) p1 p2
    let acc2 :=
      match acc with
      | none => some d
      | some m => if d < m then some d else some m
    minSegAux pos rest acc2

/-- `RouteManager.calculate_route_distance`: 0 with fewer than two polyline
points or an invalid fix; otherwise the minimum point-to-segment distance
over consecutive pairs (and the `deviation_checks` counter increments). -/
def calculate_route_distance (pos : GPSPosition) (st : RMState) : ℚ × RMState :=
  if st.route_geometry.length < 2 then (0, st)
  else if pos.is_valid = false then (0, st)
  else
    let pairs := st.route_geometry.zip st.route_geometry.tail
    let md := (minSegAux calculate_distance pos pairs none).getD 0
    (md, { st with stats :=
      { st.stats with deviation_checks := st.stats.deviation_checks + 1 } })

/-- `RouteManager.check_deviation`: builds the deviation record, stores it,
and counts a warning on a fresh deviation and a recalculation request above
the recalculation threshold. -/
def check_deviation (pos : GPSPosition) (st : RMState) :
    RMState × Option RouteDeviation :=
  if st.current_route = none then (st, none)
  else
    let rs := calculate_route_distance calculate_distance pos st
    let route_distance := rs.1
    let st1 := rs.2
    if route_distance = 0 then (st1, none)
    else
      let deviation : RouteDeviation :=
        { distance := route_distance,
          threshold_warning := st1.deviation_threshold_warning,
          threshold_recalculate := st1.deviation_threshold_recalculate,
          is_deviated := decide (st1.deviation_threshold_warning < route_distance) }
      let old := st1.deviation
      let st2 := { st1 with deviation := some deviation }
      let st3 :=
        if deviation.is_deviated then
          let st3a :=
            if old.elim true
                (fun o => decide (o.distance < st2.deviation_threshold_warning)) then
              { st2 with stats := { st2.stats with warnings := st2.stats.warnings + 1 } }
            else st2
          if st3a.deviation_threshold_recalculate < route_distance then
            { st3a with stats :=
              { st3a.stats with
                recalculate_requests := st3a.stats.recalculate_requests + 1 } }
          else st3a
        else st2
      (st3, some deviation)

/-! ### `calculate_current_step` -/

/-- The matching body of `calculate_current_step` (lines below the throttle
gate): select the nearest anchored step; on an index change store it and
stamp `last_step_update_time`; with no anchored step and a non-empty
polyline, `calculate_route_distance` runs for its log line (its
`deviation_checks` increment is the only effect).  The third component
records that the matching section ran. -/
def calc_step_matching (pos : GPSPosition) (now : ℚ) (st : RMState) :
    RMState × Option RouteStep × Bool :=
  match find_closest_step calculate_distance pos st.route_steps with
  | some (ci, cstep, _) =>
    if (ci : ℤ) ≠ st.current_step_index then
      let st2 :=
        { st with
          current_step_index := (ci : ℤ),
          current_step := some cstep,
          last_step_update_time := now,
          stats := { st.stats with step_updates := st.stats.step_updates + 1 } }
      (st2, some cstep, true)
    else (st, st.current_step, true)
  | none =>
    if st.route_geometry ≠ [] then
      ((calculate_route_distance calculate_distance pos st).2, st.current_step, true)
    else (st, st.current_step, true)

/-- `RouteManager.calculate_current_step`: guards (route present, steps
non-empty, valid fix), then the throttle — a selected step younger than
`step_update_interval` is returned as is, without matching; otherwise the
matching body runs.  Returns (state, returned step, matching-ran flag). -/
def calculate_current_step (pos : GPSPosition) (now : ℚ) (st : RMState) :
    RMState × Option RouteStep × Bool :=
  if st.current_route = none ∨ st.route_steps = [] then (st, none, false)
  else if pos.is_valid = false then (st, none, false)
  else
    match st.current_step with
    | some cs =>
      if now - st.last_step_update_time < st.step_update_interval then
        (st, some cs, false)
      else calc_step_matching calculate_distance pos now st
    | none => calc_step_matching calculate_distance pos now st

/-! ### `calculate_remaining_distance` -/

/-- The anchor chain of `calculate_remaining_distance`: `end` if its `lat`
is truthy, else the last geometry point; a candidate with falsy `lat` falls
back to `start`; then the `lat == 0 or lng == 0` rejection. -/
def remaining_coords (c : StepCoordsData) : Option (ℚ × ℚ) :=
  let startCand : Option (Option ℚ × Option ℚ) :=
    match c.start with
    | some cd => if optTruthy cd.lat then some (cd.lat, cd.lng) else none
    | none => none
  let viaEnd : Option (Option ℚ × Option ℚ) :=
    match c.endc with
    | some cd => if optTruthy cd.lat then some (cd.lat, cd.lng) else none
    | none => none
  let cand1 :=
    match viaEnd with
    | some x => some x
    | none =>
      match c.geometry.getLast? with
      | some p => some (some p.1, some p.2)
      | none => none
  let cand2 :=
    match cand1 with
    | some (la, lo) => if optTruthy la then some (la, lo) else startCand
    | none => startCand
  match cand2 with
  | none => none
  | some (la, lo) =>
    let lat := la.getD 0
    let lng := lo.getD 0
    if lat = 0 ∨ lng = 0 then none else some (lat, lng)

/-- `RouteManager.calculate_remaining_distance`: distance from the fix to
the current step's end anchor (end → last geometry point → start). -/
def calculate_remaining_distance (pos : GPSPosition) (st : RMState) : Option ℚ :=
  match st.current_step with
  | none => none
  | some step =>
    if pos.is_valid = false then none
    else
      (remaining_coords step.coordinates).map
        (fun a => calculate_distance pos.latitude pos.longitude a.1 a.2)

/-! ### `update_position` -/

/-- The result dict of `update_position` (absent keys modeled by their
falsy defaults). -/
structure UpdateResult where
  step_updated : Bool := false
  current_step : Option RouteStep := none
  deviation : Option RouteDeviation := none
  remaining_distance : Option ℚ := none
  recalculate_needed : Bool := false
  deviation_distance : Option ℚ := none
deriving DecidableEq, Repr

/-- `RouteManager.update_position`: step matching (throttled inside
`calculate_current_step`), remaining distance, deviation check and the
advisory recalculation flag.  The boolean component propagates whether the
matching section ran. -/
def update_position (pos : GPSPosition) (now : ℚ) (st : RMState) :
    RMState × UpdateResult × Bool :=
  let old_index := st.current_step_index
  let r1 := calculate_current_step calculate_distance pos now st
  let st1 := r1.1
  let ran := r1.2.2
  let res1 : UpdateResult :=
    match r1.2.1 with
    | some step =>
      { step_updated := decide (old_index ≠ st1.current_step_index),
        current_step := some step,
        remaining_distance := calculate_remaining_distance calculate_distance pos st1 }
    | none => {}
  let r2 := check_deviation calculate_distance pos st1
  let st2 := r2.1
  let res2 :=
    match r2.2 with
    | some deviation =>
      if deviation.threshold_recalculate < deviation.distance then
        { res1 with
          deviation := some deviation
          recalculate_needed := true
          deviation_distance := some deviation.distance }
      else { res1 with deviation := some deviation }
    | none => res1
  (st2, res2, ran)

end RouteSection

/-! ### Recalculation (`recalculate_route`) -/

/-- Whitespace characters stripped by Python `str.strip()` (ASCII range). -/
def pyIsSpace (c : Char) : Bool :=
  c = ' ' || c = '\t' || c = '\n' || c = '\x0d' || c = '\x0b' || c = '\x0c'

/-- Python `s.strip()`. -/
def pyStrip (l : List Char) : List Char :=
  ((l.dropWhile pyIsSpace).reverse.dropWhile pyIsSpace).reverse

/-- The credential guard `not token or not token.strip()`. -/
def tokenBlank : Option (List Char) → Bool
  | none => true
  | some t => t = [] || pyStrip t = []

/-- A Mapbox step's `maneuver` object. -/
structure MapboxManeuver where
  location : Option (ℚ × ℚ) := none
  mtype : String := ""
  modifier : String := ""
  instruction : String := ""
  bearing_after : Option ℚ := none
deriving DecidableEq, Repr

/-- A step of a Mapbox directions response (geometry is `[lon, lat]`). -/
structure MapboxStep where
  geometry : List (ℚ × ℚ) := []
  maneuver : MapboxManeuver := {}
  distance : ℚ := 0
  duration : ℚ := 0
deriving DecidableEq, Repr

/-- A leg of a Mapbox route. -/
structure MapboxLeg where
  steps : List MapboxStep := []
deriving DecidableEq, Repr

/-- A candidate route of a Mapbox response. -/
structure MapboxRoute where
  geometry : List (ℚ × ℚ) := []
  legs : List MapboxLeg := []
  distance : ℚ := 0
  duration : ℚ := 0
deriving DecidableEq, Repr

/-- The parsed body of a Mapbox directions response. -/
structure MapboxResponse where
  routes : List MapboxRoute := []
deriving DecidableEq, Repr

/-- Outcome of the synchronous provider call: a raised exception
(timeout, `HTTPError`, `URLError`, JSON decode error) or a decoded body
with its HTTP status code. -/
inductive MapboxOutcome
  | failure
  | response (code : ℤ) (body : MapboxResponse)
deriving DecidableEq, Repr

/-- The per-step conversion of the response into the MQTT step format:
start anchor from the step's first geometry point, else the step's own
maneuver location; end anchor from the last geometry point, else the next
step's maneuver location, else (for the last step) the step's own; geometry
and anchors swapped from `[lon, lat]` to `[lat, lng]`. -/
def build_step_data (steps : List MapboxStep) (i : ℕ) (step : MapboxStep) : StepData :=
  let step_geometry := step.geometry
  let start_point : Option (ℚ × ℚ) :=
    match step_geometry with
    | p :: _ => some p
    | [] => step.maneuver.location
  let end_point : Option (ℚ × ℚ) :=
    match step_geometry.getLast? with
    | some p => some p
    | none =>
      if i + 1 < steps.length then (steps.getD (i + 1) {}).maneuver.location
      else step.maneuver.location
  { instruction := step.maneuver.instruction,
    distance := (pyRound step.distance : ℚ),
    duration := pyRound (step.duration / 60),
    maneuver :=
      { mtype := step.maneuver.mtype, modifier := step.maneuver.modifier,
        bearing := step.maneuver.bearing_after },
    icon := "",
    coordinates :=
      { start := start_point.map (fun p => { lat := some p.2, lng := some p.1 }),
        endc := end_point.map (fun p => { lat := some p.2, lng := some p.1 }),
        geometry := step_geometry.map (fun p => (p.2, p.1)) } }

/-- The new-route dict built on a successful recalculation. -/
def build_new_route (st : RMState) (pos : GPSPosition) (route : MapboxRoute)
    (steps : List MapboxStep) : RouteData :=
  { rtype := "route",
    originCoords := some (pos.latitude, pos.longitude),
    destination := some
      (match st.destination_address with
       | some a => if a = "" then "Destinazione" else a
       | none => "Destinazione"),
    destCoords := st.destination_coords,
    totalDistance := pyRound route.distance,
    totalDuration := pyRound route.duration,
    routeGeometry := route.geometry.map (fun p => (p.2, p.1)),
    steps := (steps.enum).map (fun p => build_step_data steps p.1 p.2),
    recalculated := true }

/-- `RouteManager.recalculate_route`: the guard chain (feature flag, token,
destination, fix validity, single-flight flag, cooldown) each short-circuits
to `None` with no attempt; past the guards the attempt timestamp is taken
and the call's outcome is classified.  The single-flight flag is set on
entry to the `try` block and cleared in `finally`; the embedding treats one
call as atomic, so its net effect on `recalculating` is `false`.  The
returned boolean records whether a provider request was issued. -/
def recalc_classify (pos : GPSPosition) (st1 : RMState) (outcome : MapboxOutcome) :
    RMState × Option RouteData :=
  match outcome with
  | MapboxOutcome.failure =>
    ({ st1 with stats :=
      { st1.stats with recalculate_failed := st1.stats.recalculate_failed + 1 } },
     none)
  | MapboxOutcome.response code body =>
    if code ≠ 200 then
      ({ st1 with stats :=
        { st1.stats with recalculate_failed := st1.stats.recalculate_failed + 1 } },
       none)
    else
      match body.routes with
      | [] =>
        ({ st1 with stats :=
          { st1.stats with recalculate_failed := st1.stats.recalculate_failed + 1 } },
         none)
      | route :: _ =>
        match route.legs with
        | [] =>
          ({ st1 with stats :=
            { st1.stats with recalculate_failed := st1.stats.recalculate_failed + 1 } },
           none)
        | leg :: _ =>
          let new_route := build_new_route st1 pos route leg.steps
          ({ st1 with stats :=
            { st1.stats with recalculate_success := st1.stats.recalculate_success + 1 } },
           some new_route)

def recalculate_route (pos : GPSPosition) (now : ℚ) (outcome : MapboxOutcome)
    (st : RMState) : RMState × Option RouteData × Bool :=
  if st.mapbox_enabled = false then (st, none, false)
  else if tokenBlank st.mapbox_access_token then (st, none, false)
  else if st.destination_coords = none then (st, none, false)
  else if pos.is_valid = false then (st, none, false)
  else if st.recalculating then (st, none, false)
  else if now - st.last_recalculate_time < st.recalculate_cooldown then (st, none, false)
  else
    let st1 := { st with last_recalculate_time := now }
    let r := recalc_classify pos st1 outcome
    (r.1, r.2, true)

/-- The failure modes of `recalculate_route`: a raised exception, a non-2xx
status, an empty/missing `routes` array or a route without legs. -/
def recalcOutcomeFails : MapboxOutcome → Bool
  | MapboxOutcome.failure => true
  | MapboxOutcome.response code body =>
    decide (code ≠ 200) ||
    (match body.routes with
     | [] => true
     | route :: _ => route.legs.isEmpty)

/-- The classification never touches the route/step/deviation state nor the
guard-relevant fields; only `stats` changes. -/
theorem recalc_classify_fields (pos : GPSPosition) (st1 : RMState)
    (o : MapboxOutcome) :
    (recalc_classify pos st1 o).1.current_route = st1.current_route ∧
    (recalc_classify pos st1 o).1.route_steps = st1.route_steps ∧
    (recalc_classify pos st1 o).1.route_geometry = st1.route_geometry ∧
    (recalc_classify pos st1 o).1.current_step_index = st1.current_step_index ∧
    (recalc_classify pos st1 o).1.current_step = st1.current_step ∧
    (recalc_classify pos st1 o).1.deviation = st1.deviation ∧
    (recalc_classify pos st1 o).1.last_recalculate_time = st1.last_recalculate_time ∧
    (recalc_classify pos st1 o).1.recalculate_cooldown = st1.recalculate_cooldown ∧
    (recalc_classify pos st1 o).1.recalculating = st1.recalculating := by
  cases o with
  | failure => exact ⟨rfl, rfl, rfl, rfl, rfl, rfl, rfl, rfl, rfl⟩
  | response code body =>
    simp only [recalc_classify]
    by_cases hc : code ≠ 200
    · rw [if_pos hc]
      exact ⟨rfl, rfl, rfl, rfl, rfl, rfl, rfl, rfl, rfl⟩
    · rw [if_neg hc]
      rcases body with ⟨routes⟩
      cases routes with
      | nil => exact ⟨rfl, rfl, rfl, rfl, rfl, rfl, rfl, rfl, rfl⟩
      | cons route rrest =>
        rcases route with ⟨geom, legs, dist, dur⟩
        cases legs with
        | nil => exact ⟨rfl, rfl, rfl, rfl, rfl, rfl, rfl, rfl, rfl⟩
        | cons leg lrest => exact ⟨rfl, rfl, rfl, rfl, rfl, rfl, rfl, rfl, rfl⟩

/-- A failing outcome yields no route and bumps the failure counter by
exactly one. -/
theorem recalc_classify_failed (pos : GPSPosition) (st1 : RMState)
    (o : MapboxOutcome) (h : recalcOutcomeFails o = true) :
    (recalc_classify pos st1 o).2 = none ∧
    (recalc_classify pos st1 o).1.stats.recalculate_failed =
      st1.stats.recalculate_failed + 1 ∧
    (recalc_classify pos st1 o).1.stats.recalculate_success =
      st1.stats.recalculate_success := by
  cases o with
  | failure => exact ⟨rfl, rfl, rfl⟩
  | response code body =>
    simp only [recalc_classify]
    simp only [recalcOutcomeFails] at h
    by_cases hc : code ≠ 200
    · rw [if_pos hc]
      exact ⟨rfl, rfl, rfl⟩
    · rw [if_neg hc]
      rcases body with ⟨routes⟩
      cases routes with
      | nil => exact ⟨rfl, rfl, rfl⟩
      | cons route rrest =>
        rcases route with ⟨geom, legs, dist, dur⟩
        cases legs with
        | nil => exact ⟨rfl, rfl, rfl⟩
        | cons leg lrest =>
          exfalso
          simp [hc] at h

/-- A successful outcome returns the built route and bumps the success
counter. -/
theorem recalc_classify_success (pos : GPSPosition) (st1 : RMState)
    (routes : List MapboxRoute) (route : MapboxRoute) (rrest : List MapboxRoute)
    (leg : MapboxLeg) (lrest : List MapboxLeg)
    (hr : routes = route :: rrest) (hl : route.legs = leg :: lrest) :
    recalc_classify pos st1 (MapboxOutcome.response 200 (MapboxResponse.mk routes)) =
      ({ st1 with stats :=
        { st1.stats with recalculate_success := st1.stats.recalculate_success + 1 } },
       some (build_new_route st1 pos route leg.steps)) := by
  subst hr
  rcases route with ⟨geom, legs, dist, dur⟩
  simp only at hl
  subst hl
  rfl

/-- Any true guard makes `recalculate_route` return the unchanged state with
no result and no attempt. -/
theorem recalculate_route_skip (pos : GPSPosition) (now : ℚ) (o : MapboxOutcome)
    (st : RMState)
    (h : st.mapbox_enabled = false ∨ tokenBlank st.mapbox_access_token = true ∨
      st.destination_coords = none ∨ pos.is_valid = false ∨
      st.recalculating = true ∨ now - st.last_recalculate_time < st.recalculate_cooldown) :
    recalculate_route pos now o st = (st, none, false) := by
  unfold recalculate_route
  split_ifs with h1 h2 h3 h4 h5 h6
  any_goals rfl
  exfalso
  rcases h with h | h | h | h | h | h
  · exact h1 h
  · exact h2 h
  · exact h3 h
  · exact h4 h
  · exact h5 h
  · exact h6 h

/-- With all guards passing, `recalculate_route` stamps the attempt time and
delegates to the outcome classification. -/
theorem recalculate_route_attempt (pos : GPSPosition) (now : ℚ) (o : MapboxOutcome)
    (st : RMState)
    (h1 : st.mapbox_enabled = true) (h2 : tokenBlank st.mapbox_access_token = false)
    (h3 : st.destination_coords ≠ none) (h4 : pos.is_valid = true)
    (h5 : st.recalculating = false)
    (h6 : st.recalculate_cooldown ≤ now - st.last_recalculate_time) :
    recalculate_route pos now o st =
      ((recalc_classify pos { st with last_recalculate_time := now } o).1,
       (recalc_classify pos { st with last_recalculate_time := now } o).2, true) := by
  unfold recalculate_route
  rw [if_neg (by simp [h1]), if_neg (by simp [h2]), if_neg (by simp [h3]),
    if_neg (by simp [h4]), if_neg (by simp [h5]), if_neg (not_lt.mpr h6)]

/-- An attempted call (one that issued a provider request) always leaves
`last_recalculate_time = now` and the cooldown and single-flight flag
unchanged. -/
theorem recalculate_route_attempt_state (pos : GPSPosition) (now : ℚ)
    (o : MapboxOutcome) (st : RMState)
    (h : (recalculate_route pos now o st).2.2 = true) :
    (recalculate_route pos now o st).1.last_recalculate_time = now ∧
    (recalculate_route pos now o st).1.recalculate_cooldown = st.recalculate_cooldown ∧
    (recalculate_route pos now o st).1.recalculating = st.recalculating := by
  by_cases h1 : st.mapbox_enabled = false
  · rw [recalculate_route_skip pos now o st (Or.inl h1)] at h; simp at h
  by_cases h2 : tokenBlank st.mapbox_access_token = true
  · rw [recalculate_route_skip pos now o st (Or.inr (Or.inl h2))] at h; simp at h
  by_cases h3 : st.destination_coords = none
  · rw [recalculate_route_skip pos now o st (Or.inr (Or.inr (Or.inl h3)))] at h
    simp at h
  by_cases h4 : pos.is_valid = false
  · rw [recalculate_route_skip pos now o st (Or.inr (Or.inr (Or.inr (Or.inl h4))))] at h
    simp at h
  by_cases h5 : st.recalculating = true
  · rw [recalculate_route_skip pos now o st
      (Or.inr (Or.inr (Or.inr (Or.inr (Or.inl h5)))))] at h
    simp at h
  by_cases h6 : now - st.last_recalculate_time < st.recalculate_cooldown
  · rw [recalculate_route_skip pos now o st
      (Or.inr (Or.inr (Or.inr (Or.inr (Or.inr h6)))))] at h
    simp at h
  have hatt := recalculate_route_attempt pos now o st
    (by simpa using h1) (by simpa using h2) h3 (by simpa using h4)
    (by simpa using h5) (not_lt.mp h6)
  rw [hatt]
  obtain ⟨-, -, -, -, -, -, hlast, hcool, hrec⟩ :=
    recalc_classify_fields pos { st with last_recalculate_time := now } o
  exact ⟨hlast, hcool, hrec⟩

/-- C4: each guard — single-flight flag, cooldown, missing destination,
missing/blank credentials — makes the call return the skip result with no
provider request; and after any attempted call (also a failed one) the
attempt time is `now`, so a further call within the cooldown skips again. -/
theorem recalculate_route_guards (pos : GPSPosition) (now : ℚ)
    (o : MapboxOutcome) (st : RMState) :
    (st.recalculating = true → recalculate_route pos now o st = (st, none, false)) ∧
    (now - st.last_recalculate_time < st.recalculate_cooldown →
      recalculate_route pos now o st = (st, none, false)) ∧
    (st.destination_coords = none → recalculate_route pos now o st = (st, none, false)) ∧
    (tokenBlank st.mapbox_access_token = true →
      recalculate_route pos now o st = (st, none, false)) ∧
    (∀ (pos' : GPSPosition) (t' : ℚ) (o' : MapboxOutcome),
      (recalculate_route pos now o st).2.2 = true →
      t' - now < st.recalculate_cooldown →
      recalculate_route pos' t' o' (recalculate_route pos now o st).1 =
        ((recalculate_route pos now o st).1, none, false)) := by
  refine ⟨fun h => recalculate_route_skip pos now o st
      (Or.inr (Or.inr (Or.inr (Or.inr (Or.inl h))))),
    fun h => recalculate_route_skip pos now o st
      (Or.inr (Or.inr (Or.inr (Or.inr (Or.inr h))))),
    fun h => recalculate_route_skip pos now o st (Or.inr (Or.inr (Or.inl h))),
    fun h => recalculate_route_skip pos now o st (Or.inr (Or.inl h)),
    fun pos' t' o' hatt hcool => ?_⟩
  obtain ⟨hlast, hcoolw, -⟩ := recalculate_route_attempt_state pos now o st hatt
  exact recalculate_route_skip pos' t' o' _
    (Or.inr (Or.inr (Or.inr (Or.inr (Or.inr (by rw [hlast, hcoolw]; exact hcool))))))

/-- An example (non-blank) provider token. -/
def tokenExample : List Char := "pk.token".data

/-- A recalculation-ready state: feature on, token stored, destination
stored, no call in flight, last attempt at time 0. -/
def stRecalc : RMState :=
  { destination_coords := some (45, 9),
    destination_address := some "Dest",
    mapbox_access_token := some tokenExample }

theorem recalculate_route_guards_witness :
    recalculate_route posExample 10 MapboxOutcome.failure stRecalc =
      (stRecalc, none, false) ∧
    recalculate_route posExample 100 MapboxOutcome.failure
        { stRecalc with recalculating := true } =
      ({ stRecalc with recalculating := true }, none, false) ∧
    (recalculate_route posExample 100 MapboxOutcome.failure stRecalc).2.2 = true ∧
    recalculate_route posExample 120 MapboxOutcome.failure
        (recalculate_route posExample 100 MapboxOutcome.failure stRecalc).1 =
      ((recalculate_route posExample 100 MapboxOutcome.failure stRecalc).1,
       none, false) := by
  have hatt : (recalculate_route posExample 100 MapboxOutcome.failure stRecalc).2.2
      = true := by
    rw [recalculate_route_attempt posExample 100 MapboxOutcome.failure stRecalc
      rfl (by decide) (by simp [stRecalc]) rfl rfl (by norm_num [stRecalc])]
  refine ⟨(recalculate_route_guards posExample 10 MapboxOutcome.failure stRecalc).2.1
      (by norm_num [stRecalc]),
    (recalculate_route_guards posExample 100 MapboxOutcome.failure
      { stRecalc with recalculating := true }).1 rfl,
    hatt,
    (recalculate_route_guards posExample 100 MapboxOutcome.failure stRecalc).2.2.2.2
      posExample 120 MapboxOutcome.failure hatt (by norm_num [stRecalc])⟩

/-- An attempted call is exactly the classification of its outcome on the
time-stamped state. -/
theorem recalculate_route_attempt_form (pos : GPSPosition) (now : ℚ)
    (o : MapboxOutcome) (st : RMState)
    (h : (recalculate_route pos now o st).2.2 = true) :
    recalculate_route pos now o st =
      ((recalc_classify pos { st with last_recalculate_time := now } o).1,
       (recalc_classify pos { st with last_recalculate_time := now } o).2, true) := by
  by_cases h1 : st.mapbox_enabled = false
  · rw [recalculate_route_skip pos now o st (Or.inl h1)] at h; simp at h
  by_cases h2 : tokenBlank st.mapbox_access_token = true
  · rw [recalculate_route_skip pos now o st (Or.inr (Or.inl h2))] at h; simp at h
  by_cases h3 : st.destination_coords = none
  · rw [recalculate_route_skip pos now o st (Or.inr (Or.inr (Or.inl h3)))] at h
    simp at h
  by_cases h4 : pos.is_valid = false
  · rw [recalculate_route_skip pos now o st (Or.inr (Or.inr (Or.inr (Or.inl h4))))] at h
    simp at h
  by_cases h5 : st.recalculating = true
  · rw [recalculate_route_skip pos now o st
      (Or.inr (Or.inr (Or.inr (Or.inr (Or.inl h5)))))] at h
    simp at h
  by_cases h6 : now - st.last_recalculate_time < st.recalculate_cooldown
  · rw [recalculate_route_skip pos now o st
      (Or.inr (Or.inr (Or.inr (Or.inr (Or.inr h6)))))] at h
    simp at h
  exact recalculate_route_attempt pos now o st (by simpa using h1) (by simpa using h2)
    h3 (by simpa using h4) (by simpa using h5) (not_lt.mp h6)

/-- C5: every failed attempt (raised exception, non-2xx status, empty or
leg-less provider response) returns no route, leaves the active route, the
current step index/step and the deviation state exactly as before the call,
and increments the failure counter exactly once. -/
theorem recalculate_route_failure_preserves (pos : GPSPosition) (now : ℚ)
    (o : MapboxOutcome) (st : RMState)
    (hatt : (recalculate_route pos now o st).2.2 = true)
    (hfail : recalcOutcomeFails o = true) :
    (recalculate_route pos now o st).2.1 = none ∧
    (recalculate_route pos now o st).1.current_route = st.current_route ∧
    (recalculate_route pos now o st).1.route_steps = st.route_steps ∧
    (recalculate_route pos now o st).1.route_geometry = st.route_geometry ∧
    (recalculate_route pos now o st).1.current_step_index = st.current_step_index ∧
    (recalculate_route pos now o st).1.current_step = st.current_step ∧
    (recalculate_route pos now o st).1.deviation = st.deviation ∧
    (recalculate_route pos now o st).1.stats.recalculate_failed =
      st.stats.recalculate_failed + 1 ∧
    (recalculate_route pos now o st).1.stats.recalculate_success =
      st.stats.recalculate_success := by
  rw [recalculate_route_attempt_form pos now o st hatt]
  obtain ⟨hroute, hsteps, hgeom, hidx, hstep, hdev, -, -, -⟩ :=
    recalc_classify_fields pos { st with last_recalculate_time := now } o
  obtain ⟨hnone, hfailed, hsucc⟩ :=
    recalc_classify_failed pos { st with last_recalculate_time := now } o hfail
  exact ⟨hnone, hroute, hsteps, hgeom, hidx, hstep, hdev, hfailed, hsucc⟩

/-- A route present before a failing recalculation. -/
def rdOld : RouteData := { destination := some "Old" }

/-- `stRecalc` with an active route and selected step. -/
def stRecalcRoute : RMState :=
  { stRecalc with
    current_route := some rdOld,
    current_step_index := 0 }

theorem recalculate_route_failure_preserves_witness :
    (recalculate_route posExample 100
      (MapboxOutcome.response 200 { routes := [] }) stRecalcRoute).2.1 = none ∧
    (recalculate_route posExample 100
      (MapboxOutcome.response 200 { routes := [] }) stRecalcRoute).1.current_route =
      some rdOld ∧
    (recalculate_route posExample 100
      (MapboxOutcome.response 200 { routes := [] }) stRecalcRoute).1.stats.recalculate_failed
      = 1 := by
  have hatt : (recalculate_route posExample 100
      (MapboxOutcome.response 200 { routes := [] }) stRecalcRoute).2.2 = true := by
    rw [recalculate_route_attempt posExample 100 _ stRecalcRoute
      rfl (by decide) (by simp [stRecalcRoute, stRecalc]) rfl rfl
      (by norm_num [stRecalcRoute, stRecalc])]
  obtain ⟨h1, h2, -, -, -, -, -, h8, -⟩ :=
    recalculate_route_failure_preserves posExample 100
      (MapboxOutcome.response 200 { routes := [] }) stRecalcRoute hatt (by decide)
  exact ⟨h1, by rw [h2]; rfl, by rw [h8]; rfl⟩

/-! ## Claim C6 -/

/-- A provider step for the concrete success scenario. -/
def mbStep6 : MapboxStep :=
  { geometry := [(9, 45), (91/10, 451/10)],
    maneuver := { location := some (9, 45), bearing_after := some 90,
                  instruction := "Turn" },
    distance := 100, duration := 60 }

/-- A provider route for the concrete success scenario. -/
def mbRoute6 : MapboxRoute :=
  { geometry := [(9, 45), (91/10, 451/10)], legs := [{ steps := [mbStep6] }],
    distance := 100, duration := 60 }

/-- C6 counterexample: a fully successful recalculation returns a route with
`recalculated = true`, but the manager's active route is still the old one —
`recalculate_route` never calls `set_route`; it only hands the new route to
the (unwired) `on_route_recalculated` callback and to its caller. -/
theorem recalc_success_does_not_replace_route :
    ((recalculate_route posExample 100
        (MapboxOutcome.response 200 { routes := [mbRoute6] })
        stRecalcRoute).2.1).map RouteData.recalculated = some true ∧
    (recalculate_route posExample 100
        (MapboxOutcome.response 200 { routes := [mbRoute6] })
        stRecalcRoute).1.current_route = some rdOld ∧
    (recalculate_route posExample 100
        (MapboxOutcome.response 200 { routes := [mbRoute6] })
        stRecalcRoute).1.current_route ≠
      (recalculate_route posExample 100
        (MapboxOutcome.response 200 { routes := [mbRoute6] })
        stRecalcRoute).2.1 := by
  have hform := recalculate_route_attempt posExample 100
    (MapboxOutcome.response 200 { routes := [mbRoute6] }) stRecalcRoute
    rfl (by decide) (by simp [stRecalcRoute, stRecalc]) rfl rfl
    (by norm_num [stRecalcRoute, stRecalc])
  have hsucc := recalc_classify_success posExample
    { stRecalcRoute with last_recalculate_time := 100 }
    [mbRoute6] mbRoute6 [] { steps := [mbStep6] } [] rfl rfl
  rw [hform, hsucc]
  refine ⟨rfl, rfl, ?_⟩
  intro heq
  have h := congrArg (Option.map RouteData.recalculated) heq
  simp [stRecalcRoute, stRecalc, rdOld, build_new_route] at h

/-- C6 (amended): a successful recalculation returns (and passes to the
`on_route_recalculated` callback) a new route marked `recalculated = true`,
with the polyline rebuilt from the provider geometry (swapped to
`[lat, lng]`) and per-step anchors derived from each step's own geometry —
start falling back to the step's own maneuver location, end falling back to
the next step's maneuver location (the step's own for the last step) — and
bumps the success counter; it does **not** call `set_route`, so the active
route, steps and current step are unchanged until the caller applies the
returned route itself. -/
theorem recalculate_route_success_amended :
    (∀ (pos : GPSPosition) (now : ℚ) (st : RMState) (routes : List MapboxRoute)
       (route : MapboxRoute) (rrest : List MapboxRoute) (leg : MapboxLeg)
       (lrest : List MapboxLeg),
      routes = route :: rrest → route.legs = leg :: lrest →
      (recalculate_route pos now (MapboxOutcome.response 200 ⟨routes⟩) st).2.2 = true →
      (recalculate_route pos now (MapboxOutcome.response 200 ⟨routes⟩) st).2.1 =
        some (build_new_route { st with last_recalculate_time := now } pos route
          leg.steps) ∧
      (recalculate_route pos now (MapboxOutcome.response 200 ⟨routes⟩) st).1.current_route
        = st.current_route ∧
      (recalculate_route pos now (MapboxOutcome.response 200 ⟨routes⟩) st).1.route_steps
        = st.route_steps ∧
      (recalculate_route pos now (MapboxOutcome.response 200 ⟨routes⟩) st).1.current_step
        = st.current_step ∧
      (recalculate_route pos now
        (MapboxOutcome.response 200 ⟨routes⟩) st).1.current_step_index
        = st.current_step_index ∧
      (recalculate_route pos now
        (MapboxOutcome.response 200 ⟨routes⟩) st).1.stats.recalculate_success
        = st.stats.recalculate_success + 1) ∧
    (∀ (st : RMState) (pos : GPSPosition) (route : MapboxRoute)
       (steps : List MapboxStep),
      (build_new_route st pos route steps).recalculated = true ∧
      (build_new_route st pos route steps).rtype = "route" ∧
      (build_new_route st pos route steps).routeGeometry =
        route.geometry.map (fun p => (p.2, p.1)) ∧
      (build_new_route st pos route steps).destCoords = st.destination_coords ∧
      (build_new_route st pos route steps).steps.length = steps.length ∧
      (∀ i : ℕ, (build_new_route st pos route steps).steps[i]? =
        (steps[i]?).map (build_step_data steps i))) ∧
    (∀ (steps : List MapboxStep) (i : ℕ) (step : MapboxStep),
      ((build_step_data steps i step).coordinates.geometry =
        step.geometry.map (fun p => (p.2, p.1))) ∧
      (∀ q qrest, step.geometry = q :: qrest →
        (build_step_data steps i step).coordinates.start =
          some { lat := some q.2, lng := some q.1 }) ∧
      (step.geometry = [] →
        (build_step_data steps i step).coordinates.start =
          step.maneuver.location.map (fun l => { lat := some l.2, lng := some l.1 })) ∧
      (∀ q, step.geometry.getLast? = some q →
        (build_step_data steps i step).coordinates.endc =
          some { lat := some q.2, lng := some q.1 }) ∧
      (step.geometry = [] → i + 1 < steps.length →
        (build_step_data steps i step).coordinates.endc =
          ((steps.getD (i + 1) {}).maneuver.location).map
            (fun l => { lat := some l.2, lng := some l.1 })) ∧
      (step.geometry = [] → ¬(i + 1 < steps.length) →
        (build_step_data steps i step).coordinates.endc =
          step.maneuver.location.map (fun l => { lat := some l.2, lng := some l.1 }))) := by
  refine ⟨fun pos now st routes route rrest leg lrest hr hl hatt => ?_,
    fun st pos route steps => ?_, fun steps i step => ?_⟩
  · have hform := recalculate_route_attempt_form pos now
      (MapboxOutcome.response 200 ⟨routes⟩) st hatt
    have hsucc := recalc_classify_success pos
      { st with last_recalculate_time := now } routes route rrest leg lrest hr hl
    rw [hform, hsucc]
    exact ⟨rfl, rfl, rfl, rfl, rfl, rfl⟩
  · refine ⟨rfl, rfl, rfl, rfl, by simp [build_new_route], fun i => ?_⟩
    simp only [build_new_route, List.getElem?_map, List.getElem?_enum]
    cases steps[i]? with
    | none => rfl
    | some s => rfl
  · refine ⟨rfl, fun q qrest hq => ?_, fun hq => ?_, fun q hq => ?_,
      fun hq hlen => ?_, fun hq hlen => ?_⟩
    · simp [build_step_data, hq]
    · simp [build_step_data, hq]
    · have hne : step.geometry ≠ [] := by
        intro h0; rw [h0] at hq; simp at hq
      cases hgeom : step.geometry with
      | nil => exact absurd hgeom hne
      | cons g grest =>
        rw [hgeom] at hq
        simp [build_step_data, hgeom, hq]
    · simp [build_step_data, hq, hlen]
    · simp [build_step_data, hq, hlen]

theorem recalculate_route_success_amended_witness :
    (recalculate_route posExample 100
        (MapboxOutcome.response 200 { routes := [mbRoute6] })
        stRecalcRoute).2.1 =
      some (build_new_route { stRecalcRoute with last_recalculate_time := 100 }
        posExample mbRoute6 [mbStep6]) ∧
    (build_new_route { stRecalcRoute with last_recalculate_time := 100 }
      posExample mbRoute6 [mbStep6]).recalculated = true ∧
    (build_step_data [mbStep6] 0 mbStep6).coordinates.start =
      some { lat := some 45, lng := some 9 } := by
  have hatt : (recalculate_route posExample 100
      (MapboxOutcome.response 200 { routes := [mbRoute6] })
      stRecalcRoute).2.2 = true := by
    rw [recalculate_route_attempt posExample 100 _ stRecalcRoute
      rfl (by decide) (by simp [stRecalcRoute, stRecalc]) rfl rfl
      (by norm_num [stRecalcRoute, stRecalc])]
  refine ⟨(recalculate_route_success_amended.1 posExample 100 stRecalcRoute
      [mbRoute6] mbRoute6 [] { steps := [mbStep6] } [] rfl rfl hatt).1,
    (recalculate_route_success_amended.2.1 { stRecalcRoute with
      last_recalculate_time := 100 } posExample mbRoute6 [mbStep6]).1,
    ?_⟩
  have h := (recalculate_route_success_amended.2.2 [mbStep6] 0 mbStep6).2.1
    (9, 45) [(91/10, 451/10)] rfl
  simpa using h

/-! ## Claim C7 -/

/-- `calculate_route_distance` only touches the `stats` counters. -/
theorem calculate_route_distance_fields
    (calculate_distance : ℚ → ℚ → ℚ → ℚ → ℚ) (pos : GPSPosition) (st : RMState) :
    ((calculate_route_distance calculate_distance pos st).2).current_step_index =
      st.current_step_index ∧
    ((calculate_route_distance calculate_distance pos st).2).last_step_update_time =
      st.last_step_update_time ∧
    ((calculate_route_distance calculate_distance pos st).2).current_step =
      st.current_step := by
  unfold calculate_route_distance
  split_ifs <;> exact ⟨rfl, rfl, rfl⟩

/-- The matching body always reports that it ran. -/
theorem calc_step_matching_ran
    (calculate_distance : ℚ → ℚ → ℚ → ℚ → ℚ) (pos : GPSPosition) (now : ℚ)
    (st : RMState) :
    (calc_step_matching calculate_distance pos now st).2.2 = true := by
  unfold calc_step_matching
  cases hf : find_closest_step calculate_distance pos st.route_steps with
  | none =>
    by_cases hg : st.route_geometry ≠ []
    · simp [hg]
    · simp [hg]
  | some p =>
    obtain ⟨ci, cstep, d⟩ := p
    by_cases hci : (ci : ℤ) ≠ st.current_step_index
    · simp [hci]
    · simp [hci]

/-- The matching body stamps `last_step_update_time` exactly when the
selected index changes. -/
theorem calc_step_matching_time
    (calculate_distance : ℚ → ℚ → ℚ → ℚ → ℚ) (pos : GPSPosition) (now : ℚ)
    (st : RMState) :
    ((calc_step_matching calculate_distance pos now st).1.current_step_index ≠
        st.current_step_index →
      (calc_step_matching calculate_distance pos now st).1.last_step_update_time = now) ∧
    ((calc_step_matching calculate_distance pos now st).1.current_step_index =
        st.current_step_index →
      (calc_step_matching calculate_distance pos now st).1.last_step_update_time =
        st.last_step_update_time) := by
  unfold calc_step_matching
  cases hf : find_closest_step calculate_distance pos st.route_steps with
  | none =>
    dsimp only
    by_cases hg : st.route_geometry ≠ []
    · rw [if_pos hg]
      obtain ⟨hidx, htime, -⟩ :=
        calculate_route_distance_fields calculate_distance pos st
      exact ⟨fun hne => absurd hidx hne, fun _ => htime⟩
    · rw [if_neg hg]
      exact ⟨fun hne => absurd rfl hne, fun _ => rfl⟩
  | some p =>
    obtain ⟨ci, cstep, d⟩ := p
    dsimp only
    by_cases hci : (ci : ℤ) ≠ st.current_step_index
    · rw [if_pos hci]
      exact ⟨fun _ => rfl, fun heq => absurd heq hci⟩
    · rw [if_neg hci]
      exact ⟨fun hne => absurd rfl hne, fun _ => rfl⟩

/-- A call whose matching section ran is exactly the matching body. -/
theorem calculate_current_step_ran_form
    (calculate_distance : ℚ → ℚ → ℚ → ℚ → ℚ) (pos : GPSPosition) (now : ℚ)
    (st : RMState)
    (h : (calculate_current_step calculate_distance pos now st).2.2 = true) :
    calculate_current_step calculate_distance pos now st =
      calc_step_matching calculate_distance pos now st := by
  unfold calculate_current_step at h ⊢
  by_cases h1 : st.current_route = none ∨ st.route_steps = []
  · rw [if_pos h1] at h; simp at h
  · rw [if_neg h1] at h ⊢
    by_cases h2 : pos.is_valid = false
    · rw [if_pos h2] at h; simp at h
    · rw [if_neg h2] at h ⊢
      cases hcs : st.current_step with
      | none => simp only [hcs]
      | some cs =>
        simp only [hcs] at h ⊢
        by_cases hlt : now - st.last_step_update_time < st.step_update_interval
        · rw [if_pos hlt] at h; simp at h
        · rw [if_neg hlt]

/-- C7 (amended): step matching is throttled against the time of the last
step *change*, not the last matching run: while a step is selected, a call
within `step_update_interval` of the last index change returns the cached
step without matching; with no step selected (or once the interval has
elapsed) the matching body runs — and it re-runs on every later call until
the selected index changes again, because the timestamp is stamped only on
an index change. -/
theorem step_matching_throttle_amended
    (calculate_distance : ℚ → ℚ → ℚ → ℚ → ℚ) (pos : GPSPosition) (now : ℚ)
    (st : RMState) :
    (∀ cs, st.current_route ≠ none → st.route_steps ≠ [] → pos.is_valid = true →
      st.current_step = some cs →
      now - st.last_step_update_time < st.step_update_interval →
      calculate_current_step calculate_distance pos now st = (st, some cs, false)) ∧
    (st.current_route ≠ none → st.route_steps ≠ [] → pos.is_valid = true →
      st.current_step = none →
      (calculate_current_step calculate_distance pos now st).2.2 = true) ∧
    (∀ cs, st.current_route ≠ none → st.route_steps ≠ [] → pos.is_valid = true →
      st.current_step = some cs →
      st.step_update_interval ≤ now - st.last_step_update_time →
      (calculate_current_step calculate_distance pos now st).2.2 = true) ∧
    ((calculate_current_step calculate_distance pos now st).2.2 = true →
      ((calculate_current_step calculate_distance pos now st).1.current_step_index ≠
          st.current_step_index →
        (calculate_current_step calculate_distance pos now st).1.last_step_update_time
          = now) ∧
      ((calculate_current_step calculate_distance pos now st).1.current_step_index =
          st.current_step_index →
        (calculate_current_step calculate_distance pos now st).1.last_step_update_time
          = st.last_step_update_time)) := by
  refine ⟨fun cs h1 h2 h3 hcs hlt => ?_, fun h1 h2 h3 hcs => ?_,
    fun cs h1 h2 h3 hcs hge => ?_, fun hran => ?_⟩
  · simp [calculate_current_step, h1, h2, h3, hcs, hlt]
  · simp [calculate_current_step, h1, h2, h3, hcs, calc_step_matching_ran]
  · simp [calculate_current_step, h1, h2, h3, hcs, not_lt.mpr hge,
      calc_step_matching_ran]
  · rw [calculate_current_step_ran_form calculate_distance pos now st hran]
    exact calc_step_matching_time calculate_distance pos now st

/-- A step anchored at (1, 1). -/
def stepC7 : RouteStep :=
  { index := 0, instruction := "", distance := 0, duration := 0, maneuver := {},
    icon := "", coordinates := { start := some { lat := some 1, lng := some 1 } },
    bearing := none }

/-- A tracking state with one anchored step and no step selected yet. -/
def stC7 : RMState :=
  { current_route := some {}, route_steps := [stepC7] }

/-- `stC7` after the first match has selected step 0 at time 0. -/
def stC7A : RMState :=
  { stC7 with
    current_step_index := 0
    current_step := some stepC7
    stats := { step_updates := 1 } }

/-- `stC7` with the step already selected (for the throttled-call witness). -/
def stC7sel : RMState :=
  { stC7 with
    current_step_index := 0
    current_step := some stepC7 }

/-- `update_position` returns the deviation-checked state of the matching
result, and propagates the matching-ran flag unchanged. -/
theorem update_position_parts (calculate_distance : ℚ → ℚ → ℚ → ℚ → ℚ)
    (pos : GPSPosition) (now : ℚ) (st : RMState) :
    (update_position calculate_distance pos now st).1 =
      (check_deviation calculate_distance pos
        (calculate_current_step calculate_distance pos now st).1).1 ∧
    (update_position calculate_distance pos now st).2.2 =
      (calculate_current_step calculate_distance pos now st).2.2 := by
  unfold update_position
  exact ⟨rfl, rfl⟩

/-- With an empty polyline the deviation check is a no-op. -/
theorem check_deviation_no_geometry (calculate_distance : ℚ → ℚ → ℚ → ℚ → ℚ)
    (pos : GPSPosition) (st : RMState) (hg : st.route_geometry = []) :
    check_deviation calculate_distance pos st = (st, none) := by
  unfold check_deviation
  by_cases hr : st.current_route = none
  · rw [if_pos hr]
  · rw [if_neg hr]
    have hcrd : calculate_route_distance calculate_distance pos st = (0, st) := by
      unfold calculate_route_distance
      rw [if_pos (by simp [hg])]
    simp [hcrd]

/-- C7 counterexample: with the default 5 s interval, `update_position`
calls at t = 0, 6, 7 run matching at t = 0 (no step selected), at t = 6
(interval elapsed since the step change at t = 0) and **again at t = 7** —
two matching runs 1 s apart while the same step stays selected, because the
throttle timestamp is updated only when the selected index changes (it
stays 0 at t = 6). -/
theorem step_matching_not_throttled_once_selected :
    (update_position taxiDistance posExample 0 stC7).1.current_step = some stepC7 ∧
    (update_position taxiDistance posExample 0 stC7).1.last_step_update_time = 0 ∧
    (update_position taxiDistance posExample 0 stC7).2.2 = true ∧
    (update_position taxiDistance posExample 6
      (update_position taxiDistance posExample 0 stC7).1).2.2 = true ∧
    (update_position taxiDistance posExample 6
      (update_position taxiDistance posExample 0 stC7).1).1 =
      (update_position taxiDistance posExample 0 stC7).1 ∧
    (update_position taxiDistance posExample 7
      (update_position taxiDistance posExample 6
        (update_position taxiDistance posExample 0 stC7).1).1).2.2 = true ∧
    (7 : ℚ) - 6 < 5 := by
  have hA : find_closest_step taxiDistance posExample [stepC7] =
      some (0, stepC7, 2) := by
    norm_num [find_closest_step, findClosestAux, List.enum, List.enumFrom,
      stepAnchor, stepAnchorCandidate, optTruthy, stepC7, penalizedDistance,
      taxiDistance, posExample]
  have hm0 : calc_step_matching taxiDistance posExample 0 stC7 =
      (stC7A, some stepC7, true) := by
    unfold calc_step_matching
    rw [show stC7.route_steps = [stepC7] from rfl, hA]
    dsimp only
    rw [if_pos (show ((0 : ℕ) : ℤ) ≠ stC7.current_step_index by norm_num [stC7])]
    simp [stC7A, stC7]
  have hc0 : calculate_current_step taxiDistance posExample 0 stC7 =
      (stC7A, some stepC7, true) := by
    unfold calculate_current_step
    rw [if_neg (by simp [stC7]), if_neg (by simp [posExample])]
    rw [show stC7.current_step = none from rfl]
    exact hm0
  have hu0 : (update_position taxiDistance posExample 0 stC7).1 = stC7A := by
    rw [(update_position_parts taxiDistance posExample 0 stC7).1, hc0]
    rw [check_deviation_no_geometry taxiDistance posExample stC7A rfl]
  have hm6 : ∀ t : ℚ, calc_step_matching taxiDistance posExample t stC7A =
      (stC7A, some stepC7, true) := by
    intro t
    unfold calc_step_matching
    rw [show stC7A.route_steps = [stepC7] from rfl, hA]
    dsimp only
    rw [if_neg (show ¬(((0 : ℕ) : ℤ) ≠ stC7A.current_step_index) by
      norm_num [stC7A, stC7])]
    simp [stC7A, stC7]
  have hc67 : ∀ t : ℚ, 5 ≤ t → calculate_current_step taxiDistance posExample t stC7A =
      (stC7A, some stepC7, true) := by
    intro t ht
    unfold calculate_current_step
    rw [if_neg (by simp [stC7A, stC7]), if_neg (by simp [posExample])]
    rw [show stC7A.current_step = some stepC7 from rfl]
    dsimp only
    rw [if_neg (show ¬(t - stC7A.last_step_update_time < stC7A.step_update_interval) by
      show ¬(t - (0 : ℚ) < 5); intro hcon; nlinarith)]
    exact hm6 t
  have hu6 : (update_position taxiDistance posExample 6
      (update_position taxiDistance posExample 0 stC7).1).1 = stC7A := by
    rw [hu0, (update_position_parts taxiDistance posExample 6 stC7A).1,
      hc67 6 (by norm_num)]
    rw [check_deviation_no_geometry taxiDistance posExample stC7A rfl]
  refine ⟨by rw [hu0]; rfl, by rw [hu0]; rfl, ?_, ?_, ?_, ?_, by norm_num⟩
  · rw [(update_position_parts taxiDistance posExample 0 stC7).2, hc0]
  · rw [hu0, (update_position_parts taxiDistance posExample 6 stC7A).2,
      hc67 6 (by norm_num)]
  · rw [hu6, hu0]
  · rw [hu6, (update_position_parts taxiDistance posExample 7 stC7A).2,
      hc67 7 (by norm_num)]

/-! ## Claim C2 -/

/-- Invariant characterization of the selection loop: over the indexed tail
`enumFrom n steps` with an accumulator indexing before `n`, the result is
the accumulator or an anchored list entry; it is ≤ every anchored entry's
penalized distance, strictly beats the accumulator when it replaced it, and
strictly beats every anchored entry at a smaller index (first minimum
wins). -/
theorem findClosestAux_spec (cd : ℚ → ℚ → ℚ → ℚ → ℚ) (pos : GPSPosition) :
    ∀ (steps : List RouteStep) (n : ℕ) (acc : Option (ℕ × RouteStep × ℚ)),
    (∀ q, acc = some q → q.1 < n) →
    (match findClosestAux cd pos (List.enumFrom n steps) acc with
     | none => acc = none ∧ ∀ (j : ℕ) (t : RouteStep), steps[j]? = some t →
         stepAnchor t.coordinates = none
     | some (i, s, d) =>
         (acc = some (i, s, d) ∨
           (n ≤ i ∧ steps[i - n]? = some s ∧
             ∃ a, stepAnchor s.coordinates = some a ∧
               d = penalizedDistance cd pos s a)) ∧
         (∀ q, acc = some q → (i, s, d) = q ∨ d < q.2.2) ∧
         (∀ (j : ℕ) (t : RouteStep) (b : ℚ × ℚ), steps[j]? = some t →
           stepAnchor t.coordinates = some b → d ≤ penalizedDistance cd pos t b) ∧
         (∀ (j : ℕ) (t : RouteStep) (b : ℚ × ℚ), j + n < i → steps[j]? = some t →
           stepAnchor t.coordinates = some b → d < penalizedDistance cd pos t b)) := by
  intro steps
  induction steps with
  | nil =>
    intro n acc hacc
    simp only [List.enumFrom, findClosestAux]
    cases acc with
    | none => exact ⟨rfl, fun j t h => by simp at h⟩
    | some q =>
      obtain ⟨ia, sa, da⟩ := q
      exact ⟨Or.inl rfl, fun q hq => Or.inl (Option.some.inj hq),
        fun j t b h => by simp at h, fun j t b hj h => by simp at h⟩
  | cons t0 rest ih =>
    intro n acc hacc
    simp only [List.enumFrom, findClosestAux]
    cases hanch : stepAnchor t0.coordinates with
    | none =>
      have H := ih (n + 1) acc (fun q hq => Nat.lt_succ_of_lt (hacc q hq))
      cases hres : findClosestAux cd pos (List.enumFrom (n + 1) rest) acc with
      | none =>
        rw [hres] at H
        exact ⟨H.1, fun j t hj => by
          cases j with
          | zero =>
            simp only [List.getElem?_cons_zero, Option.some.injEq] at hj
            rw [← hj]; exact hanch
          | succ j => exact H.2 j t (by simpa using hj)⟩
      | some res =>
        obtain ⟨i, s, d⟩ := res
        rw [hres] at H
        obtain ⟨hsrc, haccr, hmin, hstrict⟩ := H
        refine ⟨?_, haccr, ?_, ?_⟩
        · rcases hsrc with h1 | ⟨hn, hget, a, ha, hd⟩
          · exact Or.inl h1
          · refine Or.inr ⟨by omega, ?_, a, ha, hd⟩
            have heq : i - n = (i - (n + 1)) + 1 := by omega
            rw [heq]
            simpa using hget
        · intro j t b hj hb
          cases j with
          | zero =>
            simp only [List.getElem?_cons_zero, Option.some.injEq] at hj
            rw [← hj, hanch] at hb
            exact absurd hb (by simp)
          | succ j => exact hmin j t b (by simpa using hj) hb
        · intro j t b hji hj hb
          cases j with
          | zero =>
            simp only [List.getElem?_cons_zero, Option.some.injEq] at hj
            rw [← hj, hanch] at hb
            exact absurd hb (by simp)
          | succ j => exact hstrict j t b (by omega) (by simpa using hj) hb
    | some a =>
      simp only
      by_cases hbet : acc.elim true
          (fun b => decide (penalizedDistance cd pos t0 a < b.2.2)) = true
      · rw [if_pos hbet]
        have H := ih (n + 1) (some (n, t0, penalizedDistance cd pos t0 a))
          (fun q hq => by
            have h := Option.some.inj hq
            rw [← h]
            exact Nat.lt_succ_self n)
        cases hres : findClosestAux cd pos (List.enumFrom (n + 1) rest)
            (some (n, t0, penalizedDistance cd pos t0 a)) with
        | none =>
          rw [hres] at H
          exact absurd H.1 (by simp)
        | some res =>
          obtain ⟨i, s, d⟩ := res
          rw [hres] at H
          obtain ⟨hsrc, haccr, hmin, hstrict⟩ := H
          have hrel := haccr (n, t0, penalizedDistance cd pos t0 a) rfl
          have hdle : d ≤ penalizedDistance cd pos t0 a := by
            rcases hrel with he | hlt
            · exact le_of_eq (congrArg (fun p => p.2.2) he)
            · exact le_of_lt hlt
          refine ⟨?_, ?_, ?_, ?_⟩
          · rcases hsrc with h1 | ⟨hn1, hget, a2, ha2, hd2⟩
            · have h1a := Option.some.inj h1
              simp only [Prod.mk.injEq] at h1a
              obtain ⟨hni, hts, hdd⟩ := h1a
              subst hni
              subst hts
              subst hdd
              refine Or.inr ⟨le_refl n, ?_, a, hanch, rfl⟩
              simp
            · refine Or.inr ⟨by omega, ?_, a2, ha2, hd2⟩
              have heq : i - n = (i - (n + 1)) + 1 := by omega
              rw [heq]
              simpa using hget
          · intro q hq
            right
            rw [hq] at hbet
            have hlt : penalizedDistance cd pos t0 a < q.2.2 := by
              simpa using hbet
            exact lt_of_le_of_lt hdle hlt
          · intro j t b hj hb
            cases j with
            | zero =>
              simp only [List.getElem?_cons_zero, Option.some.injEq] at hj
              rw [← hj, hanch] at hb
              have hba := Option.some.inj hb
              rw [← hj, ← hba]
              exact hdle
            | succ j => exact hmin j t b (by simpa using hj) hb
          · intro j t b hji hj hb
            cases j with
            | zero =>
              simp only [List.getElem?_cons_zero, Option.some.injEq] at hj
              have hni : n < i := by omega
              rcases hrel with he | hlt
              · exfalso
                have hin : i = n := congrArg (fun p => p.1) he
                omega
              · rw [← hj, hanch] at hb
                have hba := Option.some.inj hb
                rw [← hj, ← hba]
                exact hlt
            | succ j => exact hstrict j t b (by omega) (by simpa using hj) hb
      · rw [if_neg hbet]
        cases hacc0 : acc with
        | none =>
          exfalso
          apply hbet
          rw [hacc0]
          rfl
        | some q0 =>
          have hq0n : q0.1 < n := hacc q0 hacc0
          have hq0lt : ¬(penalizedDistance cd pos t0 a < q0.2.2) := by
            intro hlt
            apply hbet
            rw [hacc0]
            simpa using hlt
          have hle : q0.2.2 ≤ penalizedDistance cd pos t0 a := not_lt.mp hq0lt
          have H := ih (n + 1) (some q0) (fun q hq => by
            rw [← Option.some.inj hq]
            exact Nat.lt_succ_of_lt hq0n)
          cases hres : findClosestAux cd pos (List.enumFrom (n + 1) rest)
              (some q0) with
          | none =>
            rw [hres] at H
            exact absurd H.1 (by simp)
          | some res =>
            obtain ⟨i, s, d⟩ := res
            rw [hres] at H
            obtain ⟨hsrc, haccr, hmin, hstrict⟩ := H
            have hrel := haccr q0 rfl
            have hdle : d ≤ penalizedDistance cd pos t0 a := by
              rcases hrel with he | hlt
              · exact le_trans (le_of_eq (congrArg (fun p => p.2.2) he)) hle
              · exact le_of_lt (lt_of_lt_of_le hlt hle)
            refine ⟨?_, haccr, ?_, ?_⟩
            · rcases hsrc with h1 | ⟨hn1, hget, a2, ha2, hd2⟩
              · exact Or.inl h1
              · refine Or.inr ⟨by omega, ?_, a2, ha2, hd2⟩
                have heq : i - n = (i - (n + 1)) + 1 := by omega
                rw [heq]
                simpa using hget
            · intro j t b hj hb
              cases j with
              | zero =>
                simp only [List.getElem?_cons_zero, Option.some.injEq] at hj
                rw [← hj, hanch] at hb
                have hba := Option.some.inj hb
                rw [← hj, ← hba]
                exact hdle
              | succ j => exact hmin j t b (by simpa using hj) hb
            · intro j t b hji hj hb
              cases j with
              | zero =>
                simp only [List.getElem?_cons_zero, Option.some.injEq] at hj
                have hni : n < i := by omega
                rcases hsrc with h1 | ⟨hn1, -, -⟩
                · exfalso
                  have h1a := Option.some.inj h1
                  have hq0i : q0.1 = i := by rw [h1a]
                  omega
                · rcases hrel with he | hlt
                  · exfalso
                    have hiq : i = q0.1 := congrArg (fun p => p.1) he
                    omega
                  · rw [← hj, hanch] at hb
                    have hba := Option.some.inj hb
                    rw [← hj, ← hba]
                    exact lt_of_lt_of_le hlt hle
              | succ j => exact hstrict j t b (by omega) (by simpa using hj) hb

/-- C2 (amended): step matching resolves each step's anchor by trying the
start point, then the end point, then the first geometry point (an entry
with a missing or zero `lat` is passed over; a resolved anchor with a zero
coordinate disqualifies the step); it multiplies the great-circle distance
by 1.5 when the fix course and the step bearing are both present **and
non-zero** and their angular difference wrapped to ≤ 180° exceeds 90°; and
it selects the step of minimum penalized distance, ties broken in favor of
the lowest index by the strict `<` comparison. -/
theorem step_matching_amended :
    (∀ (cd : ℚ → ℚ → ℚ → ℚ → ℚ) (pos : GPSPosition) (steps : List RouteStep),
      (∀ (i : ℕ) (s : RouteStep) (d : ℚ),
        find_closest_step cd pos steps = some (i, s, d) →
        steps[i]? = some s ∧
        (∃ a, stepAnchor s.coordinates = some a ∧
          d = penalizedDistance cd pos s a) ∧
        (∀ (j : ℕ) (t : RouteStep) (b : ℚ × ℚ), steps[j]? = some t →
          stepAnchor t.coordinates = some b → d ≤ penalizedDistance cd pos t b) ∧
        (∀ (j : ℕ) (t : RouteStep) (b : ℚ × ℚ), j < i → steps[j]? = some t →
          stepAnchor t.coordinates = some b → d < penalizedDistance cd pos t b)) ∧
      (find_closest_step cd pos steps = none ↔
        ∀ (j : ℕ) (t : RouteStep), steps[j]? = some t →
          stepAnchor t.coordinates = none)) ∧
    ((∀ (c : StepCoordsData) (x : CoordDict), c.start = some x →
        optTruthy x.lat = true → stepAnchorCandidate c = some (x.lat, x.lng)) ∧
      (∀ (c : StepCoordsData) (x : CoordDict),
        (∀ y, c.start = some y → optTruthy y.lat = false) →
        c.endc = some x → optTruthy x.lat = true →
        stepAnchorCandidate c = some (x.lat, x.lng)) ∧
      (∀ (c : StepCoordsData) (p : ℚ × ℚ) (r : List (ℚ × ℚ)),
        (∀ y, c.start = some y → optTruthy y.lat = false) →
        (∀ y, c.endc = some y → optTruthy y.lat = false) →
        c.geometry = p :: r →
        stepAnchorCandidate c = some (some p.1, some p.2)) ∧
      (∀ c : StepCoordsData,
        (∀ y, c.start = some y → optTruthy y.lat = false) →
        (∀ y, c.endc = some y → optTruthy y.lat = false) →
        c.geometry = [] → stepAnchorCandidate c = none)) ∧
    ((∀ (c : StepCoordsData) (la lo : Option ℚ),
        stepAnchorCandidate c = some (la, lo) →
        (la.getD 0 = 0 ∨ lo.getD 0 = 0 → stepAnchor c = none) ∧
        (¬(la.getD 0 = 0 ∨ lo.getD 0 = 0) →
          stepAnchor c = some (la.getD 0, lo.getD 0))) ∧
      (∀ c : StepCoordsData, stepAnchorCandidate c = none → stepAnchor c = none)) ∧
    ((∀ (cd : ℚ → ℚ → ℚ → ℚ → ℚ) (pos : GPSPosition) (step : RouteStep)
        (anchor : ℚ × ℚ) (b : ℚ), step.bearing = some b →
        pos.course ≠ 0 → b ≠ 0 →
        90 < (if 180 < |pos.course - b| then 360 - |pos.course - b|
              else |pos.course - b|) →
        penalizedDistance cd pos step anchor =
          cd pos.latitude pos.longitude anchor.1 anchor.2 * (3 / 2)) ∧
      (∀ (cd : ℚ → ℚ → ℚ → ℚ → ℚ) (pos : GPSPosition) (step : RouteStep)
        (anchor : ℚ × ℚ), step.bearing = none →
        penalizedDistance cd pos step anchor =
          cd pos.latitude pos.longitude anchor.1 anchor.2) ∧
      (∀ (cd : ℚ → ℚ → ℚ → ℚ → ℚ) (pos : GPSPosition) (step : RouteStep)
        (anchor : ℚ × ℚ) (b : ℚ), step.bearing = some b →
        (pos.course = 0 ∨ b = 0) →
        penalizedDistance cd pos step anchor =
          cd pos.latitude pos.longitude anchor.1 anchor.2) ∧
      (∀ (cd : ℚ → ℚ → ℚ → ℚ → ℚ) (pos : GPSPosition) (step : RouteStep)
        (anchor : ℚ × ℚ) (b : ℚ), step.bearing = some b →
        (if 180 < |pos.course - b| then 360 - |pos.course - b|
         else |pos.course - b|) ≤ 90 →
        penalizedDistance cd pos step anchor =
          cd pos.latitude pos.longitude anchor.1 anchor.2)) := by
  refine ⟨fun cd pos steps => ⟨fun i s d hf => ?_, ?_⟩,
    ⟨fun c x hs ht => ?_, fun c x hrej he ht => ?_,
     fun c p r hrejS hrejE hg => ?_, fun c hrejS hrejE hg => ?_⟩,
    ⟨fun c la lo hcand => ⟨fun h0 => ?_, fun h1 => ?_⟩, fun c hcand => ?_⟩,
    ⟨fun cd pos step anchor b hb hc hb0 hdiff => ?_,
     fun cd pos step anchor hb => ?_,
     fun cd pos step anchor b hb hor => ?_,
     fun cd pos step anchor b hb hle => ?_⟩⟩
  · have H := findClosestAux_spec cd pos steps 0 none (fun q hq => by simp at hq)
    have hf' : findClosestAux cd pos (List.enumFrom 0 steps) none = some (i, s, d) := hf
    rw [hf'] at H
    obtain ⟨hsrc, -, hmin, hstrict⟩ := H
    rcases hsrc with h1 | ⟨-, hget, ha⟩
    · exact absurd h1 (by simp)
    · rw [Nat.sub_zero] at hget
      exact ⟨hget, ha, fun j t b hj hb => hmin j t b hj hb,
        fun j t b hji hj hb => hstrict j t b (by omega) hj hb⟩
  · constructor
    · intro hnone
      have H := findClosestAux_spec cd pos steps 0 none (fun q hq => by simp at hq)
      have hf' : findClosestAux cd pos (List.enumFrom 0 steps) none = none := hnone
      rw [hf'] at H
      exact H.2
    · intro hall
      cases hcase : find_closest_step cd pos steps with
      | none => rfl
      | some res =>
        obtain ⟨i, s, d⟩ := res
        exfalso
        have H := findClosestAux_spec cd pos steps 0 none (fun q hq => by simp at hq)
        have hf' : findClosestAux cd pos (List.enumFrom 0 steps) none =
            some (i, s, d) := hcase
        rw [hf'] at H
        obtain ⟨hsrc, -, -, -⟩ := H
        rcases hsrc with h1 | ⟨-, hget, a, ha, -⟩
        · exact absurd h1 (by simp)
        · rw [Nat.sub_zero] at hget
          rw [hall i s hget] at ha
          exact absurd ha (by simp)
  · simp [stepAnchorCandidate, hs, ht]
  · cases hs : c.start with
    | none => simp [stepAnchorCandidate, hs, he, ht]
    | some y =>
      have hy := hrej y hs
      simp [stepAnchorCandidate, hs, hy, he, ht]
  · cases hs : c.start with
    | none =>
      cases he : c.endc with
      | none => simp [stepAnchorCandidate, hs, he, hg]
      | some z =>
        have hz := hrejE z he
        simp [stepAnchorCandidate, hs, he, hz, hg]
    | some y =>
      have hy := hrejS y hs
      cases he : c.endc with
      | none => simp [stepAnchorCandidate, hs, hy, he, hg]
      | some z =>
        have hz := hrejE z he
        simp [stepAnchorCandidate, hs, hy, he, hz, hg]
  · cases hs : c.start with
    | none =>
      cases he : c.endc with
      | none => simp [stepAnchorCandidate, hs, he, hg]
      | some z =>
        have hz := hrejE z he
        simp [stepAnchorCandidate, hs, he, hz, hg]
    | some y =>
      have hy := hrejS y hs
      cases he : c.endc with
      | none => simp [stepAnchorCandidate, hs, hy, he, hg]
      | some z =>
        have hz := hrejE z he
        simp [stepAnchorCandidate, hs, hy, he, hz, hg]
  · simp only [stepAnchor, hcand]
    rw [if_pos h0]
  · simp only [stepAnchor, hcand]
    rw [if_neg h1]
  · simp [stepAnchor, hcand]
  · simp only [penalizedDistance, hb]
    rw [if_pos ⟨hc, hb0⟩, if_pos hdiff]
  · simp [penalizedDistance, hb]
  · simp only [penalizedDistance, hb]
    rw [if_neg]
    rintro ⟨h1, h2⟩
    rcases hor with h | h
    · exact h1 h
    · exact h2 h
  · by_cases hcond : pos.course ≠ 0 ∧ b ≠ 0
    · simp only [penalizedDistance, hb]
      rw [if_pos hcond, if_neg (not_lt.mpr hle)]
    · simp only [penalizedDistance, hb]
      rw [if_neg hcond]

/-- A step whose bearing is due north-adjacent 180°. -/
def stepC2 : RouteStep :=
  { index := 0, instruction := "", distance := 0, duration := 0,
    maneuver := { bearing := some 180 }, icon := "", coordinates := {},
    bearing := some 180 }

/-- A valid fix with course 0 (due north). -/
def posC2 : GPSPosition := { is_valid := true }

/-- C2 counterexample: the fix course (0°, present as a value) and the step
bearing (180°) are both present and their wrapped angular difference is
180° > 90°, yet the distance is **not** multiplied by 1.5 — the code tests
Python truthiness, so a zero course (or zero bearing) disables the
penalty. -/
theorem zero_course_disables_penalty :
    posC2.course = 0 ∧ stepC2.bearing = some 180 ∧
    (90 : ℚ) < (if 180 < |posC2.course - 180| then 360 - |posC2.course - 180|
                else |posC2.course - 180|) ∧
    penalizedDistance taxiDistance posC2 stepC2 (3, 4) =
      taxiDistance posC2.latitude posC2.longitude 3 4 ∧
    taxiDistance posC2.latitude posC2.longitude 3 4 = 7 ∧
    (7 : ℚ) ≠ 7 * (3 / 2) := by
  refine ⟨rfl, rfl, by norm_num [posC2], ?_, by norm_num [taxiDistance, posC2],
    by norm_num⟩
  simp only [penalizedDistance]
  rw [show stepC2.bearing = some 180 from rfl]
  dsimp only
  rw [if_neg]
  rintro ⟨h1, -⟩
  exact h1 rfl

/-- A second matchable step, anchored at (2, 2). -/
def stepM2 : RouteStep :=
  { index := 1, instruction := "", distance := 0, duration := 0, maneuver := {},
    icon := "", coordinates := { start := some { lat := some 2, lng := some 2 } },
    bearing := none }

theorem step_matching_amended_witness :
    (2 : ℚ) ≤ penalizedDistance taxiDistance posExample stepM2 (2, 2) ∧
    stepAnchorCandidate stepC7.coordinates = some (some 1, some 1) ∧
    penalizedDistance taxiDistance posExample stepM2 (2, 2) = 4 := by
  have hf : find_closest_step taxiDistance posExample [stepC7, stepM2] =
      some (0, stepC7, 2) := by
    norm_num [find_closest_step, findClosestAux, List.enum, List.enumFrom,
      stepAnchor, stepAnchorCandidate, optTruthy, stepC7, stepM2,
      penalizedDistance, taxiDistance, posExample]
  have H := ((step_matching_amended.1 taxiDistance posExample
    [stepC7, stepM2]).1 0 stepC7 2 hf).2.2.1 1 stepM2 (2, 2) rfl
    (by norm_num [stepAnchor, stepAnchorCandidate, optTruthy, stepM2])
  refine ⟨H, ?_, ?_⟩
  · have h := step_matching_amended.2.1.1 stepC7.coordinates
      { lat := some 1, lng := some 1 } rfl (by norm_num [optTruthy])
    simpa using h
  · have h := step_matching_amended.2.2.2.2.1 taxiDistance posExample stepM2
      (2, 2) rfl
    rw [h]
    norm_num [taxiDistance, posExample]

theorem step_matching_throttle_amended_witness :
    calculate_current_step taxiDistance posExample 2 stC7sel =
      (stC7sel, some stepC7, false) :=
  (step_matching_throttle_amended taxiDistance posExample 2 stC7sel).1 stepC7
    (by simp [stC7sel, stC7]) (by simp [stC7sel, stC7]) rfl rfl
    (by norm_num [stC7sel, stC7])

end Micronav
